import Mathlib

/-!
# ubuntu-image state machine: the common states

A shallow embedding of `internal/statemachine/common_states.go`.

* Unsigned 64-bit quantities (`quantity.Offset`, `quantity.Size`) are natural
  numbers; every addition and multiplication the source performs on them is
  reduced modulo `2 ^ 64`.
* Go maps (`gadgetInfo.Volumes`, `commonFlags.Size`, `imageSizes`) are
  association lists.  For `Volumes` the list order is the order in which a
  `range` loop happens to visit the map.
* Calls that leave the package (file system, `helper`, `gadget`, `quantity`
  parsing) are fields of `Env`.  Each effectful one receives the list of calls
  issued so far, so its answer may depend on everything that happened before.
  The functions return the calls they issued, in chronological order.
* Console output (`fmt.Printf` warnings) is not part of the model.
-/

namespace UbuntuImage

/-! ## Constants of the snapd packages `quantity` and `gadget` -/

/-- Number of values of an unsigned 64-bit integer. -/
def uint64Size : Nat := 18446744073709551616

/-- Value of `quantity.OffsetMiB`. -/
def OffsetMiB : Nat := 1048576

/-- Value of `quantity.SizeMiB`. -/
def SizeMiB : Nat := 1048576

/-- Value of `gadget.SystemBoot`. -/
def SystemBoot : String := "system-boot"

/-- Value of `gadget.SystemData`. -/
def SystemData : String := "system-data"

/-- Value of `gadget.SystemSeed`. -/
def SystemSeed : String := "system-seed"

/-- Value of `gadget.SystemSave`. -/
def SystemSave : String := "system-save"

/-! ## Data model -/

/-- Go type `gadget.RelativeOffset`. -/
structure RelativeOffset where
  RelativeTo : String
  Offset : Nat
deriving DecidableEq, Repr

/-- Go type `gadget.VolumeContent`, with the fields the state machine reads. -/
structure VolumeContent where
  Image : String
  Offset : Option Nat
  Size : Nat
deriving DecidableEq, Repr

/-- Go type `gadget.VolumeUpdate`. -/
structure VolumeUpdate where
  Edition : Nat
  Preserve : List String
deriving DecidableEq, Repr

/-- Go type `gadget.VolumeStructure`.  A `nil` pointer is `none`. -/
structure VolumeStructure where
  Name : String
  Label : String
  Offset : Option Nat
  OffsetWrite : Option RelativeOffset
  Size : Nat
  Typ : String
  Role : String
  ID : String
  Filesystem : String
  Content : List VolumeContent
  Update : VolumeUpdate
deriving DecidableEq, Repr

/-- Go type `gadget.Volume`. -/
structure Volume where
  Bootloader : String
  Structure : List VolumeStructure
deriving DecidableEq, Repr

/-- Fields of `commonFlags` read by the common states. -/
structure CommonFlags where
  Debug : Bool
  Size : List (String × String)
  HooksDirectories : List String
  DiskInfo : String
deriving DecidableEq, Repr

/-- Fields of `stateMachineFlags` read by the common states. -/
structure StateMachineFlags where
  WorkDir : String
deriving DecidableEq, Repr

/-- The `tempDirs` record of the state machine. -/
structure TempDirs where
  rootfs : String
  unpack : String
  volumes : String
deriving DecidableEq, Repr

/-- The build context (`StateMachine`), restricted to the fields the common
states use.  `gadgetInfo` holds `gadgetInfo.Volumes`. -/
structure StateMachine where
  cleanWorkDir : Bool
  yamlFilePath : String
  isSeeded : Bool
  hooksAllowed : Bool
  rootfsSize : Nat
  gadgetInfo : List (String × Volume)
  imageSizes : List (String × Nat)
  tempDirs : TempDirs
  commonFlags : CommonFlags
  stateMachineFlags : StateMachineFlags
deriving DecidableEq, Repr

/-- A Go `error` value: its text and the answer of `os.IsExist` on it. -/
structure GoError where
  msg : String
  isExist : Bool
deriving DecidableEq, Repr

/-- How a state function ends: `nil`, a returned error, or a run-time panic. -/
inductive Result where
  | ok
  | error (msg : String)
  | panic (msg : String)
deriving DecidableEq, Repr

/-- Go type `gadget.LaidOutStructure`: the embedded structure, its start
offset and its index in the descriptor. -/
structure LaidOutStructure where
  VolumeStructure : VolumeStructure
  StartOffset : Nat
  Index : Nat
deriving DecidableEq, Repr

/-- Go type `gadget.LaidOutVolume`, with the field the state machine reads. -/
structure LaidOutVolume where
  LaidOutStructure : List LaidOutStructure
deriving DecidableEq, Repr

/-- A call that leaves the package, with its arguments. -/
inductive Call where
  | osutilCopySpecialFile (src dst : String)
  | ioutilReadFile (path : String)
  | osMkdir (path : String) (perm : Nat)
  | osMkdirAll (path : String) (perm : Nat)
  | osStat (path : String)
  | ioutilReadDir (path : String)
  | Du (path : String)
  | CopyBlob (ddArgs : List String)
  | MkfsWithContent (typ img label contentRoot : String) (size sectorSize : Nat)
  | uuidNewString
  | runHooks (hookName envVar targetDir : String)
  | cleanup
  | LayoutVolume (gadgetRootDir kernelRootDir : String) (volume : Option Volume)
      (skipResolveContent : Bool)
  | NewMountedFilesystemWriter (s : LaidOutStructure)
  | Write (s : LaidOutStructure) (targetDir : String) (preserve : List String)
deriving DecidableEq, Repr

/-- The collaborators of the common states.  The first argument of an effectful
collaborator is the list of calls issued before it. -/
structure Env where
  filepathJoin : List String → String
  osGetenv : String → String
  osutilCopySpecialFile : List Call → String → String → Option GoError
  ioutilReadFile : List Call → String → Except GoError (List Nat)
  InfoFromGadgetYaml : List Nat → Except GoError (List (String × Volume))
  osMkdir : List Call → String → Nat → Option GoError
  osMkdirAll : List Call → String → Nat → Option GoError
  osStat : List Call → String → Option GoError
  ioutilReadDir : List Call → String → Except GoError (List String)
  Du : List Call → String → Except GoError Nat
  CopyBlob : List Call → List String → Option GoError
  MkfsWithContent : List Call → String → String → String → String → Nat → Nat → Option GoError
  ParseSize : String → Except GoError Nat
  uuidNewString : List Call → String
  runHooks : List Call → StateMachine → String → String → String → Option GoError
  cleanup : List Call → StateMachine → Option GoError
  HasFilesystem : VolumeStructure → Bool
  LayoutVolume : List Call → String → String → Option Volume → Bool →
    Except GoError LaidOutVolume
  NewMountedFilesystemWriter : List Call → LaidOutStructure → Option GoError
  Write : List Call → LaidOutStructure → String → List String → Option GoError

/-- What a state function leaves behind: the build context, the calls it
issued and how it ended. -/
structure Run where
  sm : StateMachine
  calls : List Call
  result : Result

/-- Modelled from the spec: `helper.MaxOffset` is not among the sources; the
spec describes the update as `farthestOffset ← max(farthestOffset, lastOffset)`. -/
def MaxOffset (offset1 offset2 : Nat) : Nat :=
  if offset1 > offset2 then offset1 else offset2

/-- Decimal rendering, `strconv.Itoa` on a non-negative index. -/
def Itoa (n : Nat) : String := toString n

/-- Decimal rendering, `strconv.FormatUint(_, 10)`. -/
def FormatUint (n : Nat) : String := toString n

/-- Octal `0755`, the permission bits the source passes to the mkdir calls. -/
def perm0755 : Nat := 493

/-! ## `loadGadgetYaml` -/

/-- The loop variables of `loadGadgetYaml` together with the two flags of the
build context that the loop writes. -/
structure WalkState where
  rootfsSeen : Bool
  isSeeded : Bool
  hooksAllowed : Bool
  farthestOffset : Nat
  lastOffset : Nat
deriving DecidableEq, Repr

/-- The `offset` local of the structure loop: the declared offset, or the
1 MiB floor / `lastOffset` rule. -/
def resolveOffset (s : VolumeStructure) (lastOffset : Nat) : Nat :=
  match s.Offset with
  | none =>
    if s.Role ≠ "mbr" ∧ lastOffset < OffsetMiB then OffsetMiB else lastOffset
  | some o => o

/-- The role scan at the head of the structure loop body. -/
def scanRole (s : VolumeStructure) (w : WalkState) : WalkState :=
  if s.Role = "" ∧ s.Label = SystemBoot then w
  else if s.Role = SystemData then { w with rootfsSeen := true }
  else if s.Role = SystemSeed then { w with isSeeded := true, hooksAllowed := false }
  else w

/-- One iteration of the structure loop of `loadGadgetYaml`. -/
def walkStructure (w : WalkState) (s : VolumeStructure) : WalkState :=
  let w1 := scanRole s w
  let offset := resolveOffset s w.lastOffset
  let lastOffset := (offset + s.Size) % uint64Size
  { w1 with lastOffset := lastOffset,
            farthestOffset := MaxOffset w.farthestOffset lastOffset }

/-- The structure loop of `loadGadgetYaml` over one volume. -/
def walkStructures (w : WalkState) (structures : List VolumeStructure) : WalkState :=
  structures.foldl walkStructure w

/-- The volume loop of `loadGadgetYaml`; the loop variables are not reset
between volumes. -/
def walkVolumes (env : Env) (volumesDir : String) :
    List (String × Volume) → WalkState → List Call → WalkState × List Call × Result
  | [], w, tr => (w, tr, Result.ok)
  | (volumeName, volume) :: rest, w, tr =>
    let volumeBaseDir := env.filepathJoin [volumesDir, volumeName]
    match env.osMkdirAll tr volumeBaseDir perm0755 with
    | some err =>
      (w, tr ++ [Call.osMkdirAll volumeBaseDir perm0755],
        Result.error ("Error creating volume dir: " ++ err.msg))
    | none =>
      walkVolumes env volumesDir rest (walkStructures w volume.Structure)
        (tr ++ [Call.osMkdirAll volumeBaseDir perm0755])

/-- The literal `rootfsStructure` of `loadGadgetYaml`; `OffsetWrite` is
`new(gadget.RelativeOffset)`, a pointer to the zero value. -/
def rootfsStructure (farthestOffset : Nat) : VolumeStructure :=
  { Name := "",
    Label := "writable",
    Offset := some farthestOffset,
    OffsetWrite := some { RelativeTo := "", Offset := 0 },
    Size := 0,
    Typ := "83,0FC63DAF-8483-4772-8E79-3D69D8477DE4",
    Role := SystemData,
    ID := "",
    Filesystem := "ext4",
    Content := [],
    Update := { Edition := 0, Preserve := [] } }

/-- Assignment through the pointer stored under `key`:
`Volumes[key].Structure = append(Volumes[key].Structure, s)`. -/
def appendStructure (key : String) (s : VolumeStructure) :
    List (String × Volume) → List (String × Volume)
  | [] => []
  | (name, volume) :: rest =>
    if name = key then (name, { volume with Structure := volume.Structure ++ [s] }) :: rest
    else (name, volume) :: appendStructure key s rest

/-- Lines 99-123 of `loadGadgetYaml`: attach the rootfs structure.  `none`
stands for the nil-pointer dereference of `Volumes["pc"]` when the map has no
such key. -/
def attachRootfs (w : WalkState) (volumes : List (String × Volume)) :
    Option (List (String × Volume)) :=
  if !w.rootfsSeen ∧ volumes.length = 1 then
    match volumes.lookup "pc" with
    | none => none
    | some _ => some (appendStructure "pc" (rootfsStructure w.farthestOffset) volumes)
  else some volumes

/-- Lines 125-134 of `loadGadgetYaml`: preserve the unpack directory when
`UBUNTU_IMAGE_PRESERVE_UNPACK` is set. -/
def preserveUnpack (env : Env) (sm : StateMachine) (tr : List Call) : Run :=
  let envar := env.osGetenv "UBUNTU_IMAGE_PRESERVE_UNPACK"
  if envar ≠ "" then
    let preserveDir := env.filepathJoin [envar, "unpack"]
    match env.osutilCopySpecialFile tr sm.tempDirs.unpack preserveDir with
    | some err =>
      { sm := sm, calls := tr ++ [Call.osutilCopySpecialFile sm.tempDirs.unpack preserveDir],
        result := Result.error ("Error preserving unpack dir: " ++ err.msg) }
    | none =>
      { sm := sm, calls := tr ++ [Call.osutilCopySpecialFile sm.tempDirs.unpack preserveDir],
        result := Result.ok }
  else { sm := sm, calls := tr, result := Result.ok }

/-- Lines 61-134 of `loadGadgetYaml`: everything after the descriptor has been
parsed into `sm.gadgetInfo`. -/
def layoutGadget (env : Env) (sm : StateMachine) (tr : List Call) : Run :=
  let w0 : WalkState :=
    { rootfsSeen := false, isSeeded := sm.isSeeded, hooksAllowed := sm.hooksAllowed,
      farthestOffset := 0, lastOffset := 0 }
  match walkVolumes env sm.tempDirs.volumes sm.gadgetInfo w0 tr with
  | (w, tr1, Result.ok) =>
    let sm1 := { sm with isSeeded := w.isSeeded, hooksAllowed := w.hooksAllowed }
    match attachRootfs w sm1.gadgetInfo with
    | none =>
      { sm := sm1, calls := tr1,
        result := Result.panic "invalid memory address or nil pointer dereference" }
    | some volumes => preserveUnpack env { sm1 with gadgetInfo := volumes } tr1
  | (w, tr1, r) =>
    { sm := { sm with isSeeded := w.isSeeded, hooksAllowed := w.hooksAllowed },
      calls := tr1, result := r }

/-- The state function `loadGadgetYaml`.  The parser's result is assigned to
`gadgetInfo` also when it fails; the nil info of that case is kept as the
empty volume list. -/
def loadGadgetYaml (env : Env) (sm : StateMachine) : Run :=
  let c1 := Call.osutilCopySpecialFile sm.yamlFilePath sm.stateMachineFlags.WorkDir
  match env.osutilCopySpecialFile [] sm.yamlFilePath sm.stateMachineFlags.WorkDir with
  | some err =>
    { sm := sm, calls := [c1], result := Result.error ("Error loading gadget.yaml: " ++ err.msg) }
  | none =>
    let c2 := Call.ioutilReadFile sm.yamlFilePath
    match env.ioutilReadFile [c1] sm.yamlFilePath with
    | Except.error err =>
      { sm := sm, calls := [c1, c2],
        result := Result.error ("Error loading gadget.yaml: " ++ err.msg) }
    | Except.ok gadgetYamlBytes =>
      match env.InfoFromGadgetYaml gadgetYamlBytes with
      | Except.error err =>
        { sm := { sm with gadgetInfo := [] }, calls := [c1, c2],
          result := Result.error ("Error loading gadget.yaml: " ++ err.msg) }
      | Except.ok volumes =>
        layoutGadget env { sm with gadgetInfo := volumes } [c1, c2]

/-! ## `calculateRootfsSize` -/

/-- The state function `calculateRootfsSize`. -/
def calculateRootfsSize (env : Env) (sm : StateMachine) : Run :=
  match env.Du [] sm.tempDirs.rootfs with
  | Except.error err =>
    { sm := sm, calls := [Call.Du sm.tempDirs.rootfs],
      result := Result.error ("Error getting rootfs size: " ++ err.msg) }
  | Except.ok rootfsSize =>
    let rootfsQuantity := rootfsSize
    let rootfsPadding := 8 * SizeMiB
    let rootfsQuantity := (rootfsQuantity + rootfsPadding) % uint64Size
    let rootfsQuantity := (rootfsQuantity + rootfsQuantity / 2) % uint64Size
    { sm := { sm with rootfsSize := rootfsQuantity },
      calls := [Call.Du sm.tempDirs.rootfs], result := Result.ok }

/-! ## `populatePreparePartitions` -/

/-- The copy loop of the `lk` bootloader branch. -/
def copyLkFiles (env : Env) (bootDir gadgetDir : String) :
    List String → List Call → List Call × Result
  | [], tr => (tr, Result.ok)
  | lkFile :: rest, tr =>
    let srcFile := env.filepathJoin [bootDir, lkFile]
    match env.osutilCopySpecialFile tr srcFile gadgetDir with
    | some err =>
      (tr ++ [Call.osutilCopySpecialFile srcFile gadgetDir],
        Result.error ("Error copying lk bootloader dir: " ++ err.msg))
    | none =>
      copyLkFiles env bootDir gadgetDir rest
        (tr ++ [Call.osutilCopySpecialFile srcFile gadgetDir])

/-- Lines 271-280: read the `lk` boot directory and copy its files. -/
def readLkDir (env : Env) (bootDir gadgetDir : String) (tr : List Call) :
    List Call × Result :=
  match env.ioutilReadDir tr bootDir with
  | Except.error err =>
    (tr ++ [Call.ioutilReadDir bootDir],
      Result.error ("Error reading lk bootloader dir: " ++ err.msg))
  | Except.ok files =>
    copyLkFiles env bootDir gadgetDir files (tr ++ [Call.ioutilReadDir bootDir])

/-- The `lk` bootloader branch at the head of the volume loop body. -/
def stageLk (env : Env) (sm : StateMachine) (volume : Volume) (tr : List Call) :
    List Call × Result :=
  if volume.Bootloader = "lk" then
    let bootDir := env.filepathJoin [sm.tempDirs.unpack, "image", "boot", "lk"]
    let gadgetDir := env.filepathJoin [sm.tempDirs.unpack, "gadget"]
    match env.osStat tr bootDir with
    | some _ => (tr ++ [Call.osStat bootDir], Result.ok)
    | none =>
      let tr1 := tr ++ [Call.osStat bootDir]
      let tr2 := tr1 ++ [Call.osMkdir gadgetDir perm0755]
      match env.osMkdir tr1 gadgetDir perm0755 with
      | some err =>
        if !err.isExist then
          (tr2, Result.error ("Failed to create gadget dir: " ++ err.msg))
        else readLkDir env bootDir gadgetDir tr2
      | none => readLkDir env bootDir gadgetDir tr2
  else (tr, Result.ok)

/-- Lines 286-299: the size correction applied to the loop-local copy
`partition`. -/
def sizePartition (rootfsSize : Nat) (partition : VolumeStructure) : VolumeStructure :=
  if partition.Role = SystemData ∨ partition.Role = SystemSeed then
    if partition.Size = 0 then { partition with Size := rootfsSize }
    else if partition.Size < rootfsSize then { partition with Size := rootfsSize }
    else partition
  else partition

/-- Lines 300-305: the `offset` local of the partition loop. -/
def partitionOffset (partition : VolumeStructure) : Nat :=
  match partition.Offset with
  | some o => o
  | none => 0

/-- Lines 308-312: the condition of the `continue`. -/
def skipSeeded (isSeeded : Bool) (partition : VolumeStructure) : Prop :=
  isSeeded = true ∧
    (partition.Role = SystemBoot ∨ partition.Role = SystemData ∨
      partition.Role = SystemSave ∨ partition.Label = SystemBoot)

instance (isSeeded : Bool) (partition : VolumeStructure) :
    Decidable (skipSeeded isSeeded partition) := by
  unfold skipSeeded
  exact inferInstance

/-- The argument list of the zero-fill `dd` invocation. -/
def zeroArgs (partImg : String) (size : Nat) : List String :=
  ["if=/dev/zero", "of=" ++ partImg, "count=0", "bs=" ++ FormatUint size, "seek=1"]

/-- The argument list of the `dd` invocation that copies one content blob. -/
def blobArgs (inFile partImg : String) (runningOffset : Nat) : List String :=
  ["if=" ++ inFile, "of=" ++ partImg, "bs=1", "seek=" ++ FormatUint runningOffset,
    "conv=sparse,notrunc"]

/-- Lines 326-351: the content loop of a structure without filesystem.
`size` is `partition.Size`. -/
def copyContents (env : Env) (unpack partImg : String) (size : Nat) :
    List VolumeContent → Nat → List Call → List Call × Result
  | [], _, tr => (tr, Result.ok)
  | content :: rest, runningOffset0, tr =>
    let runningOffset :=
      match content.Offset with
      | some o => o
      | none => runningOffset0
    let ddArgs := zeroArgs partImg size
    match env.CopyBlob tr ddArgs with
    | some err =>
      (tr ++ [Call.CopyBlob ddArgs], Result.error ("Error copying image blob: " ++ err.msg))
    | none =>
      let tr1 := tr ++ [Call.CopyBlob ddArgs]
      let inFile := env.filepathJoin [unpack, "gadget", content.Image]
      let ddArgs2 := blobArgs inFile partImg runningOffset
      match env.CopyBlob tr1 ddArgs2 with
      | some err =>
        (tr1 ++ [Call.CopyBlob ddArgs2],
          Result.error ("Error copying image blob: " ++ err.msg))
      | none =>
        copyContents env unpack partImg size rest
          ((runningOffset + content.Size) % uint64Size) (tr1 ++ [Call.CopyBlob ddArgs2])

/-- Lines 315-364: what the partition loop does with a structure that passed
the `continue`.  `partition` is the loop-local copy after the size correction. -/
def materialize (env : Env) (sm : StateMachine) (volumeName : String)
    (partitionNumber : Nat) (partition : VolumeStructure) (tr : List Call) :
    List Call × Result :=
  let partImg := env.filepathJoin
    [sm.tempDirs.volumes, volumeName, "part" ++ Itoa partitionNumber ++ ".img"]
  let contentRoot :=
    if partition.Role = SystemSeed ∨ partition.Role = SystemData then sm.tempDirs.rootfs
    else env.filepathJoin [sm.tempDirs.volumes, volumeName, "part" ++ Itoa partitionNumber]
  if partition.Filesystem = "" then
    copyContents env sm.tempDirs.unpack partImg partition.Size partition.Content 0 tr
  else
    let ddArgs := zeroArgs partImg partition.Size
    match env.CopyBlob tr ddArgs with
    | some err =>
      (tr ++ [Call.CopyBlob ddArgs],
        Result.error ("Error zeroing image file " ++ partImg ++ ": " ++ err.msg))
    | none =>
      let tr1 := tr ++ [Call.CopyBlob ddArgs]
      let mk := Call.MkfsWithContent partition.Filesystem partImg partition.Label
        contentRoot partition.Size 512
      match env.MkfsWithContent tr1 partition.Filesystem partImg partition.Label
          contentRoot partition.Size 512 with
      | some err => (tr1 ++ [mk], Result.error ("Error running mkfs: " ++ err.msg))
      | none => (tr1 ++ [mk], Result.ok)

/-- One iteration of the partition loop (lines 285-365).  Returns the new
`farthestOffset`, the calls and how the iteration ended (`ok` = go on). -/
def preparePartition (env : Env) (sm : StateMachine) (volumeName : String)
    (partitionNumber : Nat) (partition0 : VolumeStructure) (farthestOffset : Nat)
    (tr : List Call) : Nat × List Call × Result :=
  let partition := sizePartition sm.rootfsSize partition0
  let offset := partitionOffset partition
  let farthestOffset1 := MaxOffset farthestOffset ((partition.Size + offset) % uint64Size)
  if skipSeeded sm.isSeeded partition then (farthestOffset1, tr, Result.ok)
  else
    let r := materialize env sm volumeName partitionNumber partition tr
    (farthestOffset1, r.1, r.2)

/-- The partition loop of one volume, from index `partitionNumber` on. -/
def preparePartitions (env : Env) (sm : StateMachine) (volumeName : String) :
    List VolumeStructure → Nat → Nat → List Call → Nat × List Call × Result
  | [], _, farthestOffset, tr => (farthestOffset, tr, Result.ok)
  | partition :: rest, partitionNumber, farthestOffset, tr =>
    match preparePartition env sm volumeName partitionNumber partition farthestOffset tr with
    | (farthestOffset1, tr1, Result.ok) =>
      preparePartitions env sm volumeName rest (partitionNumber + 1) farthestOffset1 tr1
    | other => other

/-- Assignment `m[key] = value` on a Go map kept as an association list. -/
def mapSet (m : List (String × Nat)) (key : String) (value : Nat) : List (String × Nat) :=
  (key, value) :: m.filter (fun kv => kv.1 ≠ key)

/-- Line 369: the local `calculated`. -/
def calculated (farthestOffset : Nat) : Nat :=
  ((farthestOffset / OffsetMiB + 17) * OffsetMiB) % uint64Size

/-- Lines 366-388: store the image size of one volume. -/
def storeImageSize (env : Env) (sm : StateMachine) (volumeName : String)
    (farthestOffset : Nat) (imageSizes : List (String × Nat)) :
    List (String × Nat) × Result :=
  let minimum := calculated farthestOffset
  match sm.commonFlags.Size.lookup volumeName with
  | none => (mapSet imageSizes volumeName minimum, Result.ok)
  | some volumeString =>
    match env.ParseSize volumeString with
    | Except.error err =>
      (imageSizes,
        Result.error ("Failed to parse volume size " ++ volumeString ++ ": " ++ err.msg))
    | Except.ok volumeSize =>
      if volumeSize < minimum then (mapSet imageSizes volumeName minimum, Result.ok)
      else (mapSet imageSizes volumeName volumeSize, Result.ok)

/-- One iteration of the volume loop (lines 256-389). -/
def prepareVolume (env : Env) (sm : StateMachine) (volumeName : String) (volume : Volume)
    (imageSizes : List (String × Nat)) (tr : List Call) :
    List (String × Nat) × List Call × Result :=
  match stageLk env sm volume tr with
  | (tr1, Result.ok) =>
    match preparePartitions env sm volumeName volume.Structure 0 0 tr1 with
    | (farthestOffset, tr2, Result.ok) =>
      let r := storeImageSize env sm volumeName farthestOffset imageSizes
      (r.1, tr2, r.2)
    | (_, tr2, r) => (imageSizes, tr2, r)
  | (tr1, r) => (imageSizes, tr1, r)

/-- The volume loop of `populatePreparePartitions`. -/
def prepareVolumes (env : Env) (sm : StateMachine) :
    List (String × Volume) → List (String × Nat) → List Call →
      List (String × Nat) × List Call × Result
  | [], imageSizes, tr => (imageSizes, tr, Result.ok)
  | (volumeName, volume) :: rest, imageSizes, tr =>
    match prepareVolume env sm volumeName volume imageSizes tr with
    | (imageSizes1, tr1, Result.ok) => prepareVolumes env sm rest imageSizes1 tr1
    | other => other

/-- The state function `populatePreparePartitions`. -/
def populatePreparePartitions (env : Env) (sm : StateMachine) : Run :=
  let r := prepareVolumes env sm sm.gadgetInfo [] []
  { sm := { sm with imageSizes := r.1 }, calls := r.2.1, result := r.2.2 }

/-! ## `makeTemporaryDirectories` and `finish` -/

/-- Lines 32-40 of `makeTemporaryDirectories`: set the three temp directories
and create the rootfs directory. -/
def setTempDirs (env : Env) (sm : StateMachine) (tr : List Call) : Run :=
  let rootfs := env.filepathJoin [sm.stateMachineFlags.WorkDir, "root"]
  let unpack := env.filepathJoin [sm.stateMachineFlags.WorkDir, "unpack"]
  let volumes := env.filepathJoin [sm.stateMachineFlags.WorkDir, "volumes"]
  let sm1 := { sm with tempDirs := { rootfs := rootfs, unpack := unpack, volumes := volumes } }
  match env.osMkdir tr rootfs perm0755 with
  | some err =>
    { sm := sm1, calls := tr ++ [Call.osMkdir rootfs perm0755],
      result := Result.error ("Error creating temporary directory: " ++ err.msg) }
  | none => { sm := sm1, calls := tr ++ [Call.osMkdir rootfs perm0755], result := Result.ok }

/-- The state function `makeTemporaryDirectories`. -/
def makeTemporaryDirectories (env : Env) (sm : StateMachine) : Run :=
  if sm.stateMachineFlags.WorkDir = "" then
    let workDir := env.filepathJoin ["/tmp", "ubuntu-image-" ++ env.uuidNewString []]
    let sm1 := { sm with stateMachineFlags := { WorkDir := workDir } }
    match env.osMkdir [Call.uuidNewString] workDir perm0755 with
    | some err =>
      { sm := sm1, calls := [Call.uuidNewString, Call.osMkdir workDir perm0755],
        result := Result.error ("Failed to create temporary directory: " ++ err.msg) }
    | none =>
      setTempDirs env { sm1 with cleanWorkDir := true }
        [Call.uuidNewString, Call.osMkdir workDir perm0755]
  else
    match env.osMkdirAll [] sm.stateMachineFlags.WorkDir perm0755 with
    | some err =>
      if !err.isExist then
        { sm := sm, calls := [Call.osMkdirAll sm.stateMachineFlags.WorkDir perm0755],
          result := Result.error ("Error creating work directory: " ++ err.msg) }
      else setTempDirs env sm [Call.osMkdirAll sm.stateMachineFlags.WorkDir perm0755]
    | none => setTempDirs env sm [Call.osMkdirAll sm.stateMachineFlags.WorkDir perm0755]

/-- The state function `finish`.  The method `cleanup` is not among the
sources; it is the collaborator `Env.cleanup`, whose error is returned as it
is. -/
def finish (env : Env) (sm : StateMachine) : Run :=
  if sm.cleanWorkDir then
    match env.cleanup [] sm with
    | some err => { sm := sm, calls := [Call.cleanup], result := Result.error err.msg }
    | none => { sm := sm, calls := [Call.cleanup], result := Result.ok }
  else { sm := sm, calls := [], result := Result.ok }

/-! ## `populateRootfsContentsHooks` -/

/-- The state function `populateRootfsContentsHooks`.  The method `runHooks`
is not among the sources; it is the collaborator `Env.runHooks`, whose error is
returned as it is. -/
def populateRootfsContentsHooks (env : Env) (sm : StateMachine) : Run :=
  if !sm.hooksAllowed then { sm := sm, calls := [], result := Result.ok }
  else if sm.commonFlags.HooksDirectories.length = 0 then
    { sm := sm, calls := [], result := Result.ok }
  else
    let call := Call.runHooks "post-populate-rootfs" "UBUNTU_IMAGE_HOOK_ROOTFS"
      sm.tempDirs.rootfs
    match env.runHooks [] sm "post-populate-rootfs" "UBUNTU_IMAGE_HOOK_ROOTFS"
        sm.tempDirs.rootfs with
    | some err => { sm := sm, calls := [call], result := Result.error err.msg }
    | none => { sm := sm, calls := [call], result := Result.ok }

/-! ## `populateBootfsContents` -/

/-- Line 206: the test that makes a volume the system volume. -/
def isBootStructure (s : VolumeStructure) : Prop :=
  s.Role = SystemBoot ∨ s.Label = SystemBoot

instance (s : VolumeStructure) : Decidable (isBootStructure s) := by
  unfold isBootStructure
  exact inferInstance

/-- Lines 202-210: the structure loop of the scan; `found` holds
`systemVolumeName` and `systemVolume`. -/
def scanStructures (volumeName : String) (volume : Volume)
    (found : String × Option Volume) : List VolumeStructure → String × Option Volume
  | [] => found
  | s :: rest =>
    if isBootStructure s then scanStructures volumeName volume (volumeName, some volume) rest
    else scanStructures volumeName volume found rest

/-- Lines 201-211: the volume loop of the scan. -/
def scanVolumes : List (String × Volume) → String × Option Volume → String × Option Volume
  | [], found => found
  | (volumeName, volume) :: rest, found =>
    scanVolumes rest (scanStructures volumeName volume found volume.Structure)

/-- Lines 225-245: the loop over the laid-out structures, from index `ii` on. -/
def writeStructures (env : Env) (sm : StateMachine) (systemVolumeName : String) :
    List LaidOutStructure → Nat → List Call → List Call × Result
  | [], _, tr => (tr, Result.ok)
  | laidOutStructure :: rest, ii, tr =>
    if env.HasFilesystem laidOutStructure.VolumeStructure then
      match env.NewMountedFilesystemWriter tr laidOutStructure with
      | some err =>
        (tr ++ [Call.NewMountedFilesystemWriter laidOutStructure],
          Result.error ("Error creating NewMountedFilesystemWriter: " ++ err.msg))
      | none =>
        let tr1 := tr ++ [Call.NewMountedFilesystemWriter laidOutStructure]
        let targetDir :=
          if laidOutStructure.VolumeStructure.Role = "system-seed" then sm.tempDirs.rootfs
          else env.filepathJoin [sm.tempDirs.volumes, systemVolumeName, "part" ++ Itoa ii]
        match env.Write tr1 laidOutStructure targetDir [] with
        | some err =>
          (tr1 ++ [Call.Write laidOutStructure targetDir []],
            Result.error ("Error in mountedFilesystem.Write(): " ++ err.msg))
        | none =>
          writeStructures env sm systemVolumeName rest (ii + 1)
            (tr1 ++ [Call.Write laidOutStructure targetDir []])
    else writeStructures env sm systemVolumeName rest (ii + 1) tr

/-- The state function `populateBootfsContents`.  `systemVolume` starts as a
nil pointer and is handed to `gadget.LayoutVolume` as it is after the scan. -/
def populateBootfsContents (env : Env) (sm : StateMachine) : Run :=
  let found := scanVolumes sm.gadgetInfo ("", none)
  let systemVolumeName := found.1
  let systemVolume := found.2
  let gadgetRootDir := env.filepathJoin [sm.tempDirs.unpack, "gadget"]
  let kernelRootDir := env.filepathJoin [sm.tempDirs.unpack, "kernel"]
  let call := Call.LayoutVolume gadgetRootDir kernelRootDir systemVolume false
  match env.LayoutVolume [] gadgetRootDir kernelRootDir systemVolume false with
  | Except.error err =>
    { sm := sm, calls := [call],
      result := Result.error ("Error laying out bootfs contents: " ++ err.msg) }
  | Except.ok laidOutVolume =>
    let r := writeStructures env sm systemVolumeName laidOutVolume.LaidOutStructure 0 [call]
    { sm := sm, calls := r.1, result := r.2 }

/-! ## Specification-side definitions

These follow the wording of the specification and are compared with the
functions above in the theorems. -/

/-- The size with which a structure takes part in `populatePreparePartitions`:
for the roles system-data and system-seed the larger of the declared size and
`rootfsSize`, for every other role the declared size. -/
def effectiveSize (rootfsSize : Nat) (p : VolumeStructure) : Nat :=
  if p.Role = SystemData ∨ p.Role = SystemSeed then max p.Size rootfsSize else p.Size

/-- End of a structure as `populatePreparePartitions` sees it: its declared
offset (0 when none is declared) plus its effective size, in 64-bit arithmetic. -/
def structureEnd (rootfsSize : Nat) (p : VolumeStructure) : Nat :=
  (effectiveSize rootfsSize p + partitionOffset p) % uint64Size

/-- The maximum of `structureEnd` over the structures of a volume, 0 for none. -/
def volumeFarthest (rootfsSize : Nat) (structures : List VolumeStructure) : Nat :=
  (structures.map (structureEnd rootfsSize)).foldl max 0

/-- Ends of the structures of a volume in which every structure declares its
offset: declared offset plus effective size for each structure in turn, in
64-bit arithmetic; `none` as soon as one of them declares no offset. -/
def declaredEnds (rootfsSize : Nat) : List VolumeStructure → Option (List Nat)
  | [] => some []
  | p :: rest =>
    match p.Offset, declaredEnds rootfsSize rest with
    | some o, some ends => some ((effectiveSize rootfsSize p + o) % uint64Size :: ends)
    | _, _ => none

/-- The bytes a volume needs when `farthestOffset` is rounded up to a MiB
multiple and 17 MiB are added: `ceil(farthestOffset / 1 MiB) * 1 MiB + 17 MiB`. -/
def roundedUpPlusSlack (farthestOffset : Nat) : Nat :=
  ((farthestOffset + (OffsetMiB - 1)) / OffsetMiB) * OffsetMiB + 17 * OffsetMiB

/-- Placement offsets of the content entries of a bare structure: the declared
offset of an entry, else the previous placement plus the previous size
(`start` for the first entry), in 64-bit arithmetic. -/
def contentOffsets : List VolumeContent → Nat → List Nat
  | [], _ => []
  | c :: rest, start =>
    let o := match c.Offset with
      | some o => o
      | none => start
    o :: contentOffsets rest ((o + c.Size) % uint64Size)

/-- Path of the image file of structure `partitionNumber` of a volume. -/
def partImgPath (env : Env) (sm : StateMachine) (volumeName : String)
    (partitionNumber : Nat) : String :=
  env.filepathJoin [sm.tempDirs.volumes, volumeName, "part" ++ Itoa partitionNumber ++ ".img"]

/-- Content directory handed to the formatter: the shared rootfs directory for
the roles system-seed and system-data, else the structure's own staging
directory. -/
def contentRootPath (env : Env) (sm : StateMachine) (volumeName : String)
    (partitionNumber : Nat) (p : VolumeStructure) : String :=
  if p.Role = SystemSeed ∨ p.Role = SystemData then sm.tempDirs.rootfs
  else env.filepathJoin [sm.tempDirs.volumes, volumeName, "part" ++ Itoa partitionNumber]

/-- The zero-fill invocation for an image file. -/
def zeroFillCall (partImg : String) (size : Nat) : Call :=
  Call.CopyBlob ["if=/dev/zero", "of=" ++ partImg, "count=0", "bs=" ++ FormatUint size, "seek=1"]

/-- The blob copy of one content entry to placement offset `o`. -/
def blobCopyCall (env : Env) (unpack partImg : String) (c : VolumeContent) (o : Nat) : Call :=
  Call.CopyBlob ["if=" ++ env.filepathJoin [unpack, "gadget", c.Image], "of=" ++ partImg,
    "bs=1", "seek=" ++ FormatUint o, "conv=sparse,notrunc"]

/-- The blob copies of a bare structure, one per content entry, in declared
order, each at its placement offset. -/
def blobCopies (env : Env) (unpack partImg : String) (contents : List VolumeContent)
    (start : Nat) : List Call :=
  List.zipWith (blobCopyCall env unpack partImg) contents (contentOffsets contents start)

/-- Put the call `zero` in front of every call of a list. -/
def withZeroFill (zero : Call) : List Call → List Call
  | [] => []
  | b :: bs => zero :: b :: withZeroFill zero bs

/-- The calls that materialize a structure of the given size when none of them
fails. -/
def plannedCalls (env : Env) (sm : StateMachine) (volumeName : String)
    (partitionNumber : Nat) (p : VolumeStructure) (size : Nat) : List Call :=
  let partImg := partImgPath env sm volumeName partitionNumber
  if p.Filesystem = "" then
    withZeroFill (zeroFillCall partImg size)
      (blobCopies env sm.tempDirs.unpack partImg p.Content 0)
  else
    [zeroFillCall partImg size,
      Call.MkfsWithContent p.Filesystem partImg p.Label
        (contentRootPath env sm volumeName partitionNumber p) size 512]

/-- The calls one iteration of the partition loop issues when none of them
fails: none for a structure the seeded special case passes over. -/
def partitionCalls (env : Env) (sm : StateMachine) (volumeName : String)
    (partitionNumber : Nat) (p : VolumeStructure) : List Call :=
  if skipSeeded sm.isSeeded p then []
  else plannedCalls env sm volumeName partitionNumber p (effectiveSize sm.rootfsSize p)

/-- Ends of the structures of a volume as the layout walk of `loadGadgetYaml`
resolves them: resolved offset plus size for each structure in turn, starting
with `lastOffset`, in 64-bit arithmetic. -/
def layoutEnds : List VolumeStructure → Nat → List Nat
  | [], _ => []
  | s :: rest, lastOffset =>
    (resolveOffset s lastOffset + s.Size) % uint64Size ::
      layoutEnds rest ((resolveOffset s lastOffset + s.Size) % uint64Size)

/-- Directory into which the content of the laid-out structure at index `ii` is
written: the shared rootfs directory for the role system-seed, else the
staging directory `volumes/<systemVolumeName>/part<ii>`. -/
def bootTargetDir (env : Env) (sm : StateMachine) (systemVolumeName : String) (ii : Nat)
    (s : LaidOutStructure) : String :=
  if s.VolumeStructure.Role = "system-seed" then sm.tempDirs.rootfs
  else env.filepathJoin [sm.tempDirs.volumes, systemVolumeName, "part" ++ Itoa ii]

/-- The calls `populateBootfsContents` issues for the laid-out structure at
index `ii` when none fails: a writer and one write for a structure with a
filesystem, nothing otherwise. -/
def structureWrites (env : Env) (sm : StateMachine) (systemVolumeName : String) (ii : Nat)
    (s : LaidOutStructure) : List Call :=
  if env.HasFilesystem s.VolumeStructure then
    [Call.NewMountedFilesystemWriter s,
      Call.Write s (bootTargetDir env sm systemVolumeName ii s) []]
  else []

/-- The calls for all laid-out structures from index `ii` on, in order. -/
def bootWrites (env : Env) (sm : StateMachine) (systemVolumeName : String) :
    List LaidOutStructure → Nat → List Call
  | [], _ => []
  | s :: rest, ii =>
    structureWrites env sm systemVolumeName ii s ++
      bootWrites env sm systemVolumeName rest (ii + 1)

/-- What `populatePreparePartitions` records for a volume whose structures end
at `farthestOffset` at the latest: the computed minimum when no override is
given or the override is smaller, the override otherwise. -/
def RecordedAs (env : Env) (sm : StateMachine) (volumeName : String) (farthestOffset : Nat)
    (value : Nat) : Prop :=
  calculated farthestOffset ≤ value ∧
  (sm.commonFlags.Size.lookup volumeName = none → value = calculated farthestOffset) ∧
  (∀ volumeString volumeSize, sm.commonFlags.Size.lookup volumeName = some volumeString →
    env.ParseSize volumeString = Except.ok volumeSize →
      (calculated farthestOffset ≤ volumeSize → value = volumeSize) ∧
      (volumeSize < calculated farthestOffset → value = calculated farthestOffset))

/-- Modelled from the spec: `quantity.Size.IECString` belongs to snapd and is
not among the sources.  With two decimals and rounding to nearest, a size
renders as "12.01 MiB" when its value in MiB lies in `[12.005, 12.015)`; the
bounds are scaled by `100 * 2 ^ 20`. -/
def rendersAs1201MiB (size : Nat) : Prop :=
  1258815488 ≤ 100 * size ∧ 100 * size < 1259864064

/-! ## Sample inputs -/

/-- An environment in which every collaborator succeeds: the descriptor parses
to `volumes`, the directory scan measures `usage` bytes and a size string
parses to `parsed`.  A volume is laid out with its structures in declared
order, and the nil volume as a layout without structures. -/
def quietEnv (volumes : List (String × Volume)) (usage parsed : Nat) : Env :=
  { filepathJoin := fun parts => String.intercalate "/" parts,
    osGetenv := fun _ => "",
    osutilCopySpecialFile := fun _ _ _ => none,
    ioutilReadFile := fun _ _ => Except.ok [],
    InfoFromGadgetYaml := fun _ => Except.ok volumes,
    osMkdir := fun _ _ _ => none,
    osMkdirAll := fun _ _ _ => none,
    osStat := fun _ _ => none,
    ioutilReadDir := fun _ _ => Except.ok [],
    Du := fun _ _ => Except.ok usage,
    CopyBlob := fun _ _ => none,
    MkfsWithContent := fun _ _ _ _ _ _ _ => none,
    ParseSize := fun _ => Except.ok parsed,
    uuidNewString := fun _ => "0000",
    runHooks := fun _ _ _ _ _ => none,
    cleanup := fun _ _ => none,
    HasFilesystem := fun s => s.Filesystem ≠ "none" ∧ s.Filesystem ≠ "",
    LayoutVolume := fun _ _ _ volume _ =>
      match volume with
      | none => Except.ok { LaidOutStructure := [] }
      | some v =>
        Except.ok { LaidOutStructure :=
          v.Structure.map (fun s => { VolumeStructure := s, StartOffset := 0, Index := 0 }) },
    NewMountedFilesystemWriter := fun _ _ => none,
    Write := fun _ _ _ _ => none }

/-- A build context after `makeTemporaryDirectories` with work directory `w`. -/
def freshMachine : StateMachine :=
  { cleanWorkDir := false, yamlFilePath := "gadget.yaml", isSeeded := false,
    hooksAllowed := true, rootfsSize := 0, gadgetInfo := [], imageSizes := [],
    tempDirs := { rootfs := "w/root", unpack := "w/unpack", volumes := "w/volumes" },
    commonFlags := { Debug := false, Size := [], HooksDirectories := [], DiskInfo := "" },
    stateMachineFlags := { WorkDir := "w" } }

/-- The loop variables with which `loadGadgetYaml` starts in `freshMachine`. -/
def freshWalk : WalkState :=
  { rootfsSeen := false, isSeeded := false, hooksAllowed := true,
    farthestOffset := 0, lastOffset := 0 }

/-- A structure with the given role, label, offset, size, filesystem and
content, every other field empty. -/
def mkStructure (role label : String) (offset : Option Nat) (size : Nat)
    (filesystem : String) (content : List VolumeContent) : VolumeStructure :=
  { Name := "", Label := label, Offset := offset, OffsetWrite := none, Size := size,
    Typ := "", Role := role, ID := "", Filesystem := filesystem, Content := content,
    Update := { Edition := 0, Preserve := [] } }

/-- A descriptor whose only volume is named `pi` and holds a single vfat
boot structure of 1 MiB. -/
def piGadget : List (String × Volume) :=
  [("pi", { Bootloader := "",
            Structure := [mkStructure "system-boot" "" none 1048576 "vfat" []] })]

/-- A volume `pc` with one bare one-byte structure at offset 0. -/
def oneByteGadget : List (String × Volume) :=
  [("pc", { Bootloader := "",
            Structure := [mkStructure "" "" (some 0) 1
              "" [{ Image := "a.img", Offset := none, Size := 1 }]] })]

/-- A 30 MiB ext4 structure without declared offset. -/
def firstImplicit : VolumeStructure := mkStructure "" "" none 31457280 "ext4" []

/-- A 30 MiB system-data structure without declared offset. -/
def secondImplicit : VolumeStructure := mkStructure "system-data" "" none 31457280 "ext4" []

/-- A volume `pc` with two 30 MiB structures, neither declaring an offset. -/
def implicitGadget : List (String × Volume) :=
  [("pc", { Bootloader := "", Structure := [firstImplicit, secondImplicit] })]

/-- A volume `pc` whose only structure is bare, 1 MiB at offset 1 MiB, with an
empty content list. -/
def emptyBareGadget : List (String × Volume) :=
  [("pc", { Bootloader := "",
            Structure := [mkStructure "" "" (some 1048576) 1048576 "" []] })]

/-- A bare structure with three content entries, the second with a declared
offset. -/
def threeBlobs : VolumeStructure :=
  mkStructure "" "" (some 0) 4096 ""
    [{ Image := "a.img", Offset := none, Size := 100 },
     { Image := "b.img", Offset := some 512, Size := 50 },
     { Image := "c.img", Offset := none, Size := 7 }]

/-- A volume `pc` whose only structure has role system-seed and the label
`system-boot`. -/
def seedLabelledBoot : List (String × Volume) :=
  [("pc", { Bootloader := "",
            Structure := [mkStructure "system-seed" "system-boot" (some 1048576) 1048576
              "vfat" []] })]

/-- The build context holding `oneByteGadget`. -/
def oneByteMachine : StateMachine := { freshMachine with gadgetInfo := oneByteGadget }

/-- The build context holding `oneByteGadget`, with the size override `20M`
for volume `pc`. -/
def overrideMachine : StateMachine :=
  { freshMachine with
    gadgetInfo := oneByteGadget,
    commonFlags := { Debug := false, Size := [("pc", "20M")], HooksDirectories := [],
                     DiskInfo := "" } }

/-- The build context holding `emptyBareGadget`. -/
def emptyBareMachine : StateMachine := { freshMachine with gadgetInfo := emptyBareGadget }

/-- A seeded build context holding `seedLabelledBoot`. -/
def seededMachine : StateMachine :=
  { freshMachine with isSeeded := true, hooksAllowed := false, gadgetInfo := seedLabelledBoot }

/-- The build context holding the bare structure `threeBlobs` in volume `pc`. -/
def blobMachine : StateMachine :=
  { freshMachine with gadgetInfo := [("pc", { Bootloader := "", Structure := [threeBlobs] })] }

/-- A build context before `makeTemporaryDirectories`, without work directory. -/
def blankMachine : StateMachine :=
  { cleanWorkDir := false, yamlFilePath := "gadget.yaml", isSeeded := false,
    hooksAllowed := true, rootfsSize := 0, gadgetInfo := [], imageSizes := [],
    tempDirs := { rootfs := "", unpack := "", volumes := "" },
    commonFlags := { Debug := false, Size := [], HooksDirectories := ["hooks.d"],
                     DiskInfo := "" },
    stateMachineFlags := { WorkDir := "" } }

/-- A descriptor whose only volume `pc` holds one vfat boot structure of 1 MiB
and no system-data structure. -/
def pcBootVolume : Volume :=
  { Bootloader := "", Structure := [mkStructure "system-boot" "" none 1048576 "vfat" []] }

/-- A vfat system-seed structure of 1 MiB at offset 1 MiB. -/
def seedStructure : VolumeStructure :=
  mkStructure "system-seed" "ubuntu-seed" (some 1048576) 1048576 "vfat" []

/-- An ext4 system-boot structure of 1 MiB without declared offset. -/
def bootStructure : VolumeStructure :=
  mkStructure "system-boot" "ubuntu-boot" none 1048576 "ext4" []

/-- An ext4 system-data structure of 1 MiB without declared offset. -/
def dataStructure : VolumeStructure :=
  mkStructure "system-data" "ubuntu-data" none 1048576 "ext4" []

/-- A bare structure of 1 MiB at offset 0 that carries the label `system-boot`. -/
def labelledStructure : VolumeStructure :=
  mkStructure "" "system-boot" (some 0) 1048576 "" []

/-- A volume `pc` with a system-seed, a system-boot and a system-data structure. -/
def seededGadget : List (String × Volume) :=
  [("pc", { Bootloader := "", Structure := [seedStructure, bootStructure, dataStructure] })]

/-- A volume `pc` whose only structure is a system-data structure: no structure
carries the boot role or the boot label. -/
def noBootGadget : List (String × Volume) :=
  [("pc", { Bootloader := "",
            Structure := [mkStructure "system-data" "writable" (some 1048576) 0 "ext4" []] })]

/-- The build context holding `noBootGadget`, with `rootfsSize` = 12593412. -/
def noBootMachine : StateMachine :=
  { freshMachine with gadgetInfo := noBootGadget, rootfsSize := 12593412 }

/-- The build context holding volume `pc` with a bare boot-labelled structure
and a vfat system-seed structure. -/
def bootMachine : StateMachine :=
  { freshMachine with
    gadgetInfo :=
      [("pc", { Bootloader := "",
                Structure := [labelledStructure, seedStructure, bootStructure] })] }

/-! # Theorems -/

/-! ## Basic facts -/

theorem MaxOffset_eq_max (a b : Nat) : MaxOffset a b = max a b := by
  unfold MaxOffset
  by_cases h : a > b
  · rw [if_pos h]; exact (Nat.max_eq_left (Nat.le_of_lt h)).symm
  · rw [if_neg h]; exact (Nat.max_eq_right (Nat.le_of_not_gt h)).symm

theorem walkStructures_snoc (w : WalkState) (pre : List VolumeStructure)
    (s : VolumeStructure) :
    walkStructures w (pre ++ [s]) = walkStructure (walkStructures w pre) s := by
  simp [walkStructures, List.foldl_append]

/-! ## `loadGadgetYaml`: the layout walk -/

/-- C1: in the structure walk of `loadGadgetYaml`, a structure `s` visited
after the structures `pre` with incoming `lastOffset` gets as resolved offset
its declared offset when it has one; otherwise 1 MiB when its role is not
`mbr` and `lastOffset < 1 MiB`; otherwise `lastOffset` (hence
`max (1 MiB) lastOffset` for a non-mbr structure and `lastOffset` for an mbr
one).  Afterwards `lastOffset` is the resolved offset plus the size (a 64-bit
sum, the plain sum when it fits) and `farthestOffset` is the maximum of its
previous value and the new `lastOffset`. -/
theorem walkStructure_layout (w0 : WalkState) (pre : List VolumeStructure)
    (s : VolumeStructure) :
    (∀ o, s.Offset = some o →
        resolveOffset s (walkStructures w0 pre).lastOffset = o) ∧
    (s.Offset = none → s.Role ≠ "mbr" → (walkStructures w0 pre).lastOffset < 1048576 →
        resolveOffset s (walkStructures w0 pre).lastOffset = 1048576) ∧
    (s.Offset = none → ¬ (s.Role ≠ "mbr" ∧ (walkStructures w0 pre).lastOffset < 1048576) →
        resolveOffset s (walkStructures w0 pre).lastOffset =
          (walkStructures w0 pre).lastOffset) ∧
    (s.Offset = none → s.Role ≠ "mbr" →
        resolveOffset s (walkStructures w0 pre).lastOffset =
          max 1048576 (walkStructures w0 pre).lastOffset) ∧
    (s.Offset = none → s.Role = "mbr" →
        resolveOffset s (walkStructures w0 pre).lastOffset =
          (walkStructures w0 pre).lastOffset) ∧
    (walkStructures w0 (pre ++ [s])).lastOffset =
        (resolveOffset s (walkStructures w0 pre).lastOffset + s.Size) % 2 ^ 64 ∧
    (resolveOffset s (walkStructures w0 pre).lastOffset + s.Size < 2 ^ 64 →
        (walkStructures w0 (pre ++ [s])).lastOffset =
          resolveOffset s (walkStructures w0 pre).lastOffset + s.Size) ∧
    (walkStructures w0 (pre ++ [s])).farthestOffset =
        max (walkStructures w0 pre).farthestOffset
          (walkStructures w0 (pre ++ [s])).lastOffset := by
  rw [walkStructures_snoc]
  generalize walkStructures w0 pre = w
  have hlast : (walkStructure w s).lastOffset =
      (resolveOffset s w.lastOffset + s.Size) % 2 ^ 64 := by
    simp [walkStructure, uint64Size]
  refine ⟨?_, ?_, ?_, ?_, ?_, hlast, ?_, ?_⟩
  · intro o ho
    simp [resolveOffset, ho]
  · intro hn hr hl
    simp [resolveOffset, hn, hr, OffsetMiB, hl]
  · intro hn hc
    simp only [resolveOffset, hn, OffsetMiB]
    rw [if_neg hc]
  · intro hn hr
    simp only [resolveOffset, hn, OffsetMiB]
    by_cases hl : w.lastOffset < 1048576
    · rw [if_pos ⟨hr, hl⟩]
      exact (Nat.max_eq_left (Nat.le_of_lt hl)).symm
    · rw [if_neg (fun h => hl h.2)]
      exact (Nat.max_eq_right (Nat.le_of_not_gt hl)).symm
  · intro hn hr
    simp only [resolveOffset, hn]
    rw [if_neg (fun h => h.1 hr)]
  · intro hfit
    rw [hlast, Nat.mod_eq_of_lt hfit]
  · simp [walkStructure, MaxOffset_eq_max]

/-- Witness of C1: the second of two 30 MiB structures without declared offset
is visited with `lastOffset` = 31 MiB and is resolved to that value. -/
theorem walkStructure_layout_witness :
    resolveOffset secondImplicit
      (walkStructures freshWalk [firstImplicit]).lastOffset =
      max 1048576
        (walkStructures freshWalk [firstImplicit]).lastOffset :=
  (walkStructure_layout freshWalk [firstImplicit] secondImplicit).2.2.2.1
    (by decide) (by decide)

/-- C2: a descriptor whose only volume is named `pi` and declares no
system-data structure makes `loadGadgetYaml` end in a nil-pointer panic at the
append to `Volumes["pc"]`; no structure is appended to the sole volume. -/
theorem loadGadgetYaml_sole_volume_not_pc :
    (loadGadgetYaml (quietEnv piGadget 0 0) freshMachine).result =
        Result.panic "invalid memory address or nil pointer dereference" ∧
    (loadGadgetYaml (quietEnv piGadget 0 0) freshMachine).sm.gadgetInfo = piGadget := by
  decide

/-- With a sole volume named `pc` and no system-data structure seen, the
rootfs structure is appended at the end of that volume and nothing else
changes. -/
theorem attachRootfs_pc (w : WalkState) (volume : Volume) (h : w.rootfsSeen = false) :
    attachRootfs w [("pc", volume)] =
      some [("pc", { volume with
        Structure := volume.Structure ++ [rootfsStructure w.farthestOffset] })] := by
  simp [attachRootfs, h, List.lookup, appendStructure]

/-- With a sole volume not named `pc` and no system-data structure seen, the
append dereferences a nil pointer. -/
theorem attachRootfs_not_pc (w : WalkState) (name : String) (volume : Volume)
    (h : w.rootfsSeen = false) (hname : name ≠ "pc") :
    attachRootfs w [(name, volume)] = none := by
  have hbeq : ("pc" == name) = false := by
    simpa using fun h' : "pc" = name => hname h'.symm
  simp [attachRootfs, h, List.lookup, hbeq]

/-- When a system-data structure was seen, or the volume count is not one, the
volumes stay as they are. -/
theorem attachRootfs_unchanged (w : WalkState) (volumes : List (String × Volume))
    (h : w.rootfsSeen = true ∨ volumes.length ≠ 1) :
    attachRootfs w volumes = some volumes := by
  unfold attachRootfs
  rcases h with h | h
  · simp [h]
  · simp [h]

/-! ## `populatePreparePartitions`: one structure -/

theorem sizePartition_eq (r : Nat) (p : VolumeStructure) :
    sizePartition r p = { p with Size := effectiveSize r p } := by
  unfold sizePartition effectiveSize
  by_cases hrole : p.Role = SystemData ∨ p.Role = SystemSeed
  · rw [if_pos hrole, if_pos hrole]
    by_cases h0 : p.Size = 0
    · rw [if_pos h0, h0, Nat.max_eq_right (Nat.zero_le r)]
    · rw [if_neg h0]
      by_cases hlt : p.Size < r
      · rw [if_pos hlt, Nat.max_eq_right (Nat.le_of_lt hlt)]
      · rw [if_neg hlt, Nat.max_eq_left (Nat.le_of_not_gt hlt)]
  · rw [if_neg hrole, if_neg hrole]

theorem zeroArgs_call (partImg : String) (size : Nat) :
    Call.CopyBlob (zeroArgs partImg size) = zeroFillCall partImg size := rfl

theorem blobArgs_call (env : Env) (unpack partImg : String) (c : VolumeContent) (o : Nat) :
    Call.CopyBlob (blobArgs (env.filepathJoin [unpack, "gadget", c.Image]) partImg o) =
      blobCopyCall env unpack partImg c o := rfl

theorem blobCopies_cons (env : Env) (unpack partImg : String) (c : VolumeContent)
    (rest : List VolumeContent) (start : Nat) :
    blobCopies env unpack partImg (c :: rest) start =
      blobCopyCall env unpack partImg c (c.Offset.getD start) ::
        blobCopies env unpack partImg rest ((c.Offset.getD start + c.Size) % uint64Size) := by
  cases hc : c.Offset <;> simp [blobCopies, contentOffsets, hc]

theorem copyContents_calls (env : Env) (unpack partImg : String) (size : Nat) :
    ∀ (contents : List VolumeContent) (start : Nat) (tr : List Call),
      ∃ issued,
        (copyContents env unpack partImg size contents start tr).1 = tr ++ issued ∧
        issued <+: withZeroFill (zeroFillCall partImg size)
          (blobCopies env unpack partImg contents start) ∧
        ((copyContents env unpack partImg size contents start tr).2 = Result.ok →
          issued = withZeroFill (zeroFillCall partImg size)
            (blobCopies env unpack partImg contents start)) := by
  intro contents
  induction contents with
  | nil =>
    intro start tr
    exact ⟨[], by simp [copyContents], by simp [blobCopies, withZeroFill, contentOffsets],
      by simp [blobCopies, withZeroFill, contentOffsets]⟩
  | cons c rest ih =>
    intro start tr
    have hrun : (match c.Offset with
        | some o => o
        | none => start) = c.Offset.getD start := by
      cases c.Offset <;> rfl
    rw [blobCopies_cons]
    simp only [copyContents, hrun, withZeroFill, zeroArgs_call, blobArgs_call]
    cases h1 : env.CopyBlob tr (zeroArgs partImg size) with
    | some err =>
      refine ⟨[zeroFillCall partImg size], by simp, ?_, by simp⟩
      exact ⟨_, rfl⟩
    | none =>
      simp only []
      cases h2 : env.CopyBlob (tr ++ [zeroFillCall partImg size])
          (blobArgs (env.filepathJoin [unpack, "gadget", c.Image]) partImg
            (c.Offset.getD start)) with
      | some err =>
        refine ⟨[zeroFillCall partImg size,
          blobCopyCall env unpack partImg c (c.Offset.getD start)], by simp, ?_, by simp⟩
        exact ⟨_, rfl⟩
      | none =>
        simp only []
        obtain ⟨issued, h₁, h₂, h₃⟩ := ih ((c.Offset.getD start + c.Size) % uint64Size)
          (tr ++ [zeroFillCall partImg size] ++
            [blobCopyCall env unpack partImg c (c.Offset.getD start)])
        refine ⟨zeroFillCall partImg size ::
          blobCopyCall env unpack partImg c (c.Offset.getD start) :: issued, ?_, ?_, ?_⟩
        · rw [h₁]; simp
        · obtain ⟨t, ht⟩ := h₂
          exact ⟨t, by simp [← ht]⟩
        · intro hok
          rw [h₃ hok]

theorem materialize_calls (env : Env) (sm : StateMachine) (volumeName : String)
    (n : Nat) (p : VolumeStructure) (tr : List Call) :
    ∃ issued,
      (materialize env sm volumeName n p tr).1 = tr ++ issued ∧
      issued <+: plannedCalls env sm volumeName n p p.Size ∧
      ((materialize env sm volumeName n p tr).2 = Result.ok →
        issued = plannedCalls env sm volumeName n p p.Size) := by
  unfold materialize plannedCalls
  by_cases hfs : p.Filesystem = ""
  · simp only [hfs, if_true]
    exact copyContents_calls env sm.tempDirs.unpack _ p.Size p.Content 0 tr
  · simp only [hfs, if_false, zeroArgs_call]
    cases h1 : env.CopyBlob tr (zeroArgs (env.filepathJoin
        [sm.tempDirs.volumes, volumeName, "part" ++ Itoa n ++ ".img"]) p.Size) with
    | some err =>
      refine ⟨[zeroFillCall (partImgPath env sm volumeName n) p.Size], by simp [partImgPath],
        ⟨_, rfl⟩, by simp⟩
    | none =>
      simp only []
      refine ⟨[zeroFillCall (partImgPath env sm volumeName n) p.Size,
        Call.MkfsWithContent p.Filesystem (partImgPath env sm volumeName n) p.Label
          (contentRootPath env sm volumeName n p) p.Size 512], ?_, ⟨[], by simp⟩, by simp⟩
      cases h2 : env.MkfsWithContent
          (tr ++ [zeroFillCall (env.filepathJoin
            [sm.tempDirs.volumes, volumeName, "part" ++ Itoa n ++ ".img"]) p.Size])
          p.Filesystem
          (env.filepathJoin [sm.tempDirs.volumes, volumeName, "part" ++ Itoa n ++ ".img"])
          p.Label
          (if p.Role = SystemSeed ∨ p.Role = SystemData then sm.tempDirs.rootfs
            else env.filepathJoin [sm.tempDirs.volumes, volumeName, "part" ++ Itoa n])
          p.Size 512 <;>
        simp [partImgPath, contentRootPath]

theorem preparePartition_spec (env : Env) (sm : StateMachine) (volumeName : String)
    (n : Nat) (p : VolumeStructure) (far : Nat) (tr : List Call) :
    (preparePartition env sm volumeName n p far tr).1 = max far (structureEnd sm.rootfsSize p) ∧
    ∃ issued,
      (preparePartition env sm volumeName n p far tr).2.1 = tr ++ issued ∧
      issued <+: partitionCalls env sm volumeName n p ∧
      ((preparePartition env sm volumeName n p far tr).2.2 = Result.ok →
        issued = partitionCalls env sm volumeName n p) := by
  have hskip : skipSeeded sm.isSeeded
      { p with Size := effectiveSize sm.rootfsSize p } ↔ skipSeeded sm.isSeeded p := Iff.rfl
  unfold preparePartition partitionCalls
  rw [sizePartition_eq]
  by_cases hs : skipSeeded sm.isSeeded p
  · simp only [if_pos (hskip.mpr hs), if_pos hs, MaxOffset_eq_max]
    exact ⟨rfl, [], by simp, ⟨[], rfl⟩, fun _ => rfl⟩
  · simp only [if_neg (fun h => hs (hskip.mp h)), if_neg hs, MaxOffset_eq_max]
    exact ⟨rfl, materialize_calls env sm volumeName n
      { p with Size := effectiveSize sm.rootfsSize p } tr⟩

/-! ## `populatePreparePartitions`: the loops -/

theorem preparePartitions_cons (env : Env) (sm : StateMachine) (volumeName : String)
    (p : VolumeStructure) (rest : List VolumeStructure) (n far : Nat) (tr : List Call) :
    preparePartitions env sm volumeName (p :: rest) n far tr =
      if (preparePartition env sm volumeName n p far tr).2.2 = Result.ok then
        preparePartitions env sm volumeName rest (n + 1)
          (preparePartition env sm volumeName n p far tr).1
          (preparePartition env sm volumeName n p far tr).2.1
      else preparePartition env sm volumeName n p far tr := by
  rw [preparePartitions]
  generalize preparePartition env sm volumeName n p far tr = x
  rcases x with ⟨a, b, c⟩
  cases c <;> simp

theorem preparePartitions_extends (env : Env) (sm : StateMachine) (volumeName : String) :
    ∀ (ps : List VolumeStructure) (n far : Nat) (tr : List Call),
      tr <+: (preparePartitions env sm volumeName ps n far tr).2.1 := by
  intro ps
  induction ps with
  | nil => intro n far tr; simp [preparePartitions]
  | cons p rest ih =>
    intro n far tr
    rw [preparePartitions_cons]
    obtain ⟨_, issued, h₁, _, _⟩ := preparePartition_spec env sm volumeName n p far tr
    have hpre : tr <+: (preparePartition env sm volumeName n p far tr).2.1 := ⟨issued, h₁.symm⟩
    split
    · exact hpre.trans (ih _ _ _)
    · exact hpre

theorem preparePartitions_farthest (env : Env) (sm : StateMachine) (volumeName : String) :
    ∀ (ps : List VolumeStructure) (n far : Nat) (tr : List Call),
      (preparePartitions env sm volumeName ps n far tr).2.2 = Result.ok →
      (preparePartitions env sm volumeName ps n far tr).1 =
        (ps.map (structureEnd sm.rootfsSize)).foldl max far := by
  intro ps
  induction ps with
  | nil => intro n far tr _; simp [preparePartitions]
  | cons p rest ih =>
    intro n far tr
    rw [preparePartitions_cons]
    split
    · intro hok
      rw [ih _ _ _ hok, (preparePartition_spec env sm volumeName n p far tr).1]
      simp
    · rename_i hne
      intro hok
      exact absurd hok hne

theorem preparePartitions_visits (env : Env) (sm : StateMachine) (volumeName : String) :
    ∀ (ps : List VolumeStructure) (n far : Nat) (tr : List Call),
      (preparePartitions env sm volumeName ps n far tr).2.2 = Result.ok →
      ∀ (j : Nat) (p : VolumeStructure), ps[j]? = some p →
        ∃ far1 tr1 after,
          tr <+: tr1 ∧
          (preparePartition env sm volumeName (n + j) p far1 tr1).2 =
            (tr1 ++ partitionCalls env sm volumeName (n + j) p, Result.ok) ∧
          (preparePartitions env sm volumeName ps n far tr).2.1 =
            tr1 ++ partitionCalls env sm volumeName (n + j) p ++ after := by
  intro ps
  induction ps with
  | nil => intro n far tr _ j p hj; simp at hj
  | cons q rest ih =>
    intro n far tr
    rw [preparePartitions_cons]
    split
    · rename_i hq
      intro hok j p hj
      obtain ⟨_, issued, h₁, _, h₃⟩ := preparePartition_spec env sm volumeName n q far tr
      cases j with
      | zero =>
        simp at hj
        subst hj
        obtain ⟨after, hafter⟩ := preparePartitions_extends env sm volumeName rest (n + 1)
          (preparePartition env sm volumeName n q far tr).1
          (preparePartition env sm volumeName n q far tr).2.1
        refine ⟨far, tr, after, List.prefix_refl tr, ?_, ?_⟩
        · show (preparePartition env sm volumeName n q far tr).2 =
            (tr ++ partitionCalls env sm volumeName n q, Result.ok)
          rw [← h₃ hq, ← h₁, ← hq]
        · show _ = tr ++ partitionCalls env sm volumeName n q ++ after
          rw [← hafter, h₁, h₃ hq]
      | succ j =>
        simp at hj
        obtain ⟨far1, tr1, after, hpre, hrun, hfin⟩ := ih (n + 1) _ _ hok j p hj
        have hidx : n + 1 + j = n + (j + 1) := by omega
        rw [hidx] at hrun hfin
        exact ⟨far1, tr1, after, (List.prefix_append tr issued).trans (h₁ ▸ hpre), hrun, hfin⟩
    · rename_i hne
      intro hok
      exact absurd hok hne

/-! ## `populatePreparePartitions`: the size table -/

theorem lookup_mapSet_self (m : List (String × Nat)) (key : String) (value : Nat) :
    (mapSet m key value).lookup key = some value := by
  simp [mapSet, List.lookup]

theorem lookup_filter_ne (key other : String) (hne : other ≠ key) :
    ∀ m : List (String × Nat),
      (m.filter (fun kv => kv.1 ≠ key)).lookup other = m.lookup other := by
  intro m
  induction m with
  | nil => rfl
  | cons kv rest ih =>
    rcases kv with ⟨k, v⟩
    by_cases hk : k = key
    · subst hk
      have hbeq : (other == k) = false := by simpa using hne
      simp only [List.filter, List.lookup, hbeq, ne_eq, not_true_eq_false, decide_False]
      exact ih
    · by_cases ho : other = k
      · subst ho
        simp [List.filter, List.lookup, hk]
      · have hbeq : (other == k) = false := by simpa using ho
        simp only [List.filter, List.lookup, hbeq, ne_eq, hk, not_false_eq_true, decide_True]
        exact ih

theorem lookup_mapSet_ne (m : List (String × Nat)) (key other : String) (value : Nat)
    (hne : other ≠ key) : (mapSet m key value).lookup other = m.lookup other := by
  have hbeq : (other == key) = false := by simpa using hne
  simp only [mapSet, List.lookup, hbeq]
  exact lookup_filter_ne key other hne m

theorem storeImageSize_ok (env : Env) (sm : StateMachine) (volumeName : String)
    (far : Nat) (m : List (String × Nat))
    (hok : (storeImageSize env sm volumeName far m).2 = Result.ok) :
    ∃ value, (storeImageSize env sm volumeName far m).1 = mapSet m volumeName value ∧
      RecordedAs env sm volumeName far value := by
  unfold storeImageSize at hok ⊢
  unfold RecordedAs
  cases hl : sm.commonFlags.Size.lookup volumeName with
  | none =>
    refine ⟨calculated far, by simp, Nat.le_refl _, fun _ => rfl, ?_⟩
    intro volumeString volumeSize h
    cases h
  | some volumeString =>
    rw [hl] at hok
    simp only [] at hok ⊢
    cases hp : env.ParseSize volumeString with
    | error err => rw [hp] at hok; simp at hok
    | ok volumeSize =>
      simp only []
      by_cases hlt : volumeSize < calculated far
      · refine ⟨calculated far, by simp [hlt], Nat.le_refl _, fun h => (by cases h), ?_⟩
        intro str s hstr hs
        cases hstr
        rw [hp] at hs
        cases hs
        exact ⟨fun hle => absurd hlt (Nat.not_lt.mpr hle), fun _ => rfl⟩
      · refine ⟨volumeSize, by simp [hlt], Nat.le_of_not_gt hlt, fun h => (by cases h), ?_⟩
        intro str s hstr hs
        cases hstr
        rw [hp] at hs
        cases hs
        exact ⟨fun _ => rfl, fun h => absurd h hlt⟩

theorem copyLkFiles_extends (env : Env) (bootDir gadgetDir : String) :
    ∀ (files : List String) (tr : List Call),
      tr <+: (copyLkFiles env bootDir gadgetDir files tr).1 := by
  intro files
  induction files with
  | nil => intro tr; simp [copyLkFiles]
  | cons f rest ih =>
    intro tr
    simp only [copyLkFiles]
    split
    · exact List.prefix_append _ _
    · exact (List.prefix_append _ _).trans (ih _)

theorem readLkDir_extends (env : Env) (bootDir gadgetDir : String) (tr : List Call) :
    tr <+: (readLkDir env bootDir gadgetDir tr).1 := by
  unfold readLkDir
  split
  · exact List.prefix_append _ _
  · exact (List.prefix_append _ _).trans (copyLkFiles_extends env bootDir gadgetDir _ _)

theorem stageLk_extends (env : Env) (sm : StateMachine) (volume : Volume) (tr : List Call) :
    tr <+: (stageLk env sm volume tr).1 := by
  unfold stageLk
  split
  · dsimp only
    split
    · exact List.prefix_append _ _
    · split
      · split
        · simp only [List.append_assoc]
          exact List.prefix_append _ _
        · exact ((List.prefix_append _ _).trans (List.prefix_append _ _)).trans
            (readLkDir_extends env _ _ _)
      · exact ((List.prefix_append _ _).trans (List.prefix_append _ _)).trans
          (readLkDir_extends env _ _ _)
  · exact List.prefix_refl tr

theorem prepareVolume_eq (env : Env) (sm : StateMachine) (volumeName : String)
    (volume : Volume) (m : List (String × Nat)) (tr : List Call) :
    prepareVolume env sm volumeName volume m tr =
      if (stageLk env sm volume tr).2 = Result.ok then
        if (preparePartitions env sm volumeName volume.Structure 0 0
            (stageLk env sm volume tr).1).2.2 = Result.ok then
          ((storeImageSize env sm volumeName
              (preparePartitions env sm volumeName volume.Structure 0 0
                (stageLk env sm volume tr).1).1 m).1,
            (preparePartitions env sm volumeName volume.Structure 0 0
              (stageLk env sm volume tr).1).2.1,
            (storeImageSize env sm volumeName
              (preparePartitions env sm volumeName volume.Structure 0 0
                (stageLk env sm volume tr).1).1 m).2)
        else
          (m, (preparePartitions env sm volumeName volume.Structure 0 0
              (stageLk env sm volume tr).1).2.1,
            (preparePartitions env sm volumeName volume.Structure 0 0
              (stageLk env sm volume tr).1).2.2)
      else (m, (stageLk env sm volume tr).1, (stageLk env sm volume tr).2) := by
  unfold prepareVolume
  generalize stageLk env sm volume tr = x
  rcases x with ⟨tr1, r1⟩
  cases r1 <;> simp
  generalize preparePartitions env sm volumeName volume.Structure 0 0 tr1 = y
  rcases y with ⟨far, tr2, r2⟩
  cases r2 <;> simp

theorem prepareVolume_extends (env : Env) (sm : StateMachine) (volumeName : String)
    (volume : Volume) (m : List (String × Nat)) (tr : List Call) :
    tr <+: (prepareVolume env sm volumeName volume m tr).2.1 := by
  rw [prepareVolume_eq]
  have h1 := stageLk_extends env sm volume tr
  have h2 := preparePartitions_extends env sm volumeName volume.Structure 0 0
    (stageLk env sm volume tr).1
  split
  · split
    · exact h1.trans h2
    · exact h1.trans h2
  · exact h1

theorem prepareVolume_ok (env : Env) (sm : StateMachine) (volumeName : String)
    (volume : Volume) (m : List (String × Nat)) (tr : List Call)
    (hok : (prepareVolume env sm volumeName volume m tr).2.2 = Result.ok) :
    ∃ value, (prepareVolume env sm volumeName volume m tr).1 = mapSet m volumeName value ∧
      RecordedAs env sm volumeName (volumeFarthest sm.rootfsSize volume.Structure) value := by
  rw [prepareVolume_eq] at hok ⊢
  by_cases h1 : (stageLk env sm volume tr).2 = Result.ok
  · rw [if_pos h1] at hok ⊢
    by_cases h2 : (preparePartitions env sm volumeName volume.Structure 0 0
        (stageLk env sm volume tr).1).2.2 = Result.ok
    · rw [if_pos h2] at hok ⊢
      have hfar := preparePartitions_farthest env sm volumeName volume.Structure 0 0 _ h2
      rw [hfar] at hok ⊢
      exact storeImageSize_ok env sm volumeName _ m hok
    · rw [if_neg h2] at hok
      exact absurd hok h2
  · rw [if_neg h1] at hok
    exact absurd hok h1

theorem prepareVolume_visits (env : Env) (sm : StateMachine) (volumeName : String)
    (volume : Volume) (m : List (String × Nat)) (tr : List Call)
    (hok : (prepareVolume env sm volumeName volume m tr).2.2 = Result.ok)
    (j : Nat) (p : VolumeStructure) (hj : volume.Structure[j]? = some p) :
    ∃ far1 tr1 after,
      tr <+: tr1 ∧
      (preparePartition env sm volumeName j p far1 tr1).2 =
        (tr1 ++ partitionCalls env sm volumeName j p, Result.ok) ∧
      (prepareVolume env sm volumeName volume m tr).2.1 =
        tr1 ++ partitionCalls env sm volumeName j p ++ after := by
  rw [prepareVolume_eq] at hok ⊢
  by_cases h1 : (stageLk env sm volume tr).2 = Result.ok
  · rw [if_pos h1] at hok ⊢
    by_cases h2 : (preparePartitions env sm volumeName volume.Structure 0 0
        (stageLk env sm volume tr).1).2.2 = Result.ok
    · rw [if_pos h2] at hok ⊢
      obtain ⟨far1, tr1, after, hpre, hrun, hfin⟩ :=
        preparePartitions_visits env sm volumeName volume.Structure 0 0 _ h2 j p hj
      rw [Nat.zero_add] at hrun hfin
      exact ⟨far1, tr1, after, (stageLk_extends env sm volume tr).trans hpre, hrun, hfin⟩
    · rw [if_neg h2] at hok
      exact absurd hok h2
  · rw [if_neg h1] at hok
    exact absurd hok h1

theorem prepareVolumes_cons (env : Env) (sm : StateMachine) (volumeName : String)
    (volume : Volume) (rest : List (String × Volume)) (m : List (String × Nat))
    (tr : List Call) :
    prepareVolumes env sm ((volumeName, volume) :: rest) m tr =
      if (prepareVolume env sm volumeName volume m tr).2.2 = Result.ok then
        prepareVolumes env sm rest (prepareVolume env sm volumeName volume m tr).1
          (prepareVolume env sm volumeName volume m tr).2.1
      else prepareVolume env sm volumeName volume m tr := by
  rw [prepareVolumes]
  generalize prepareVolume env sm volumeName volume m tr = x
  rcases x with ⟨a, b, c⟩
  cases c <;> simp

theorem prepareVolumes_extends (env : Env) (sm : StateMachine) :
    ∀ (vols : List (String × Volume)) (m : List (String × Nat)) (tr : List Call),
      tr <+: (prepareVolumes env sm vols m tr).2.1 := by
  intro vols
  induction vols with
  | nil => intro m tr; simp [prepareVolumes]
  | cons nv rest ih =>
    intro m tr
    rcases nv with ⟨volumeName, volume⟩
    rw [prepareVolumes_cons]
    have h := prepareVolume_extends env sm volumeName volume m tr
    split
    · exact h.trans (ih _ _)
    · exact h

theorem prepareVolumes_frame (env : Env) (sm : StateMachine) (key : String) :
    ∀ (vols : List (String × Volume)) (m : List (String × Nat)) (tr : List Call),
      (prepareVolumes env sm vols m tr).2.2 = Result.ok →
      key ∉ vols.map Prod.fst →
      (prepareVolumes env sm vols m tr).1.lookup key = m.lookup key := by
  intro vols
  induction vols with
  | nil => intro m tr _ _; simp [prepareVolumes]
  | cons nv rest ih =>
    intro m tr
    rcases nv with ⟨volumeName, volume⟩
    rw [prepareVolumes_cons]
    split
    · rename_i hv
      intro hok hkey
      simp only [List.map_cons, List.mem_cons, not_or] at hkey
      obtain ⟨value, hval, _⟩ := prepareVolume_ok env sm volumeName volume m tr hv
      rw [ih _ _ hok hkey.2, hval]
      exact lookup_mapSet_ne m volumeName key value hkey.1
    · rename_i hne
      intro hok
      exact absurd hok hne

theorem prepareVolumes_records (env : Env) (sm : StateMachine) :
    ∀ (vols : List (String × Volume)) (m : List (String × Nat)) (tr : List Call),
      (prepareVolumes env sm vols m tr).2.2 = Result.ok →
      (vols.map Prod.fst).Nodup →
      ∀ (volumeName : String) (volume : Volume), (volumeName, volume) ∈ vols →
        ∃ value, (prepareVolumes env sm vols m tr).1.lookup volumeName = some value ∧
          RecordedAs env sm volumeName (volumeFarthest sm.rootfsSize volume.Structure)
            value := by
  intro vols
  induction vols with
  | nil => intro m tr _ _ volumeName volume hmem; simp at hmem
  | cons nv rest ih =>
    intro m tr
    rcases nv with ⟨name, vol⟩
    rw [prepareVolumes_cons]
    split
    · rename_i hv
      intro hok hnd volumeName volume hmem
      simp only [List.map_cons, List.nodup_cons] at hnd
      rcases List.mem_cons.mp hmem with hhead | htail
      · cases hhead
        obtain ⟨value, hval, hrec⟩ := prepareVolume_ok env sm name vol m tr hv
        refine ⟨value, ?_, hrec⟩
        rw [prepareVolumes_frame env sm name rest _ _ hok hnd.1, hval]
        exact lookup_mapSet_self m name value
      · exact ih _ _ hok hnd.2 volumeName volume htail
    · rename_i hne
      intro hok
      exact absurd hok hne

theorem prepareVolumes_visits (env : Env) (sm : StateMachine) :
    ∀ (vols : List (String × Volume)) (m : List (String × Nat)) (tr : List Call),
      (prepareVolumes env sm vols m tr).2.2 = Result.ok →
      ∀ (volumeName : String) (volume : Volume), (volumeName, volume) ∈ vols →
      ∀ (j : Nat) (p : VolumeStructure), volume.Structure[j]? = some p →
        ∃ far1 tr1 after,
          (preparePartition env sm volumeName j p far1 tr1).2 =
            (tr1 ++ partitionCalls env sm volumeName j p, Result.ok) ∧
          (prepareVolumes env sm vols m tr).2.1 =
            tr1 ++ partitionCalls env sm volumeName j p ++ after := by
  intro vols
  induction vols with
  | nil => intro m tr _ volumeName volume hmem; simp at hmem
  | cons nv rest ih =>
    intro m tr
    rcases nv with ⟨name, vol⟩
    rw [prepareVolumes_cons]
    split
    · rename_i hv
      intro hok volumeName volume hmem j p hj
      rcases List.mem_cons.mp hmem with hhead | htail
      · cases hhead
        obtain ⟨far1, tr1, after, _, hrun, hfin⟩ :=
          prepareVolume_visits env sm name vol m tr hv j p hj
        obtain ⟨more, hmore⟩ := prepareVolumes_extends env sm rest
          (prepareVolume env sm name vol m tr).1
          (prepareVolume env sm name vol m tr).2.1
        refine ⟨far1, tr1, after ++ more, hrun, ?_⟩
        rw [← hmore, hfin]
        simp
      · exact ih _ _ hok volumeName volume htail j p hj
    · rename_i hne
      intro hok
      exact absurd hok hne

/-- In a successful run every volume has an entry in the size table, recorded
from the farthest structure end of that volume. -/
theorem populate_records (env : Env) (sm : StateMachine)
    (hok : (populatePreparePartitions env sm).result = Result.ok)
    (hnd : (sm.gadgetInfo.map Prod.fst).Nodup)
    (volumeName : String) (volume : Volume) (hmem : (volumeName, volume) ∈ sm.gadgetInfo) :
    ∃ value, (populatePreparePartitions env sm).sm.imageSizes.lookup volumeName = some value ∧
      RecordedAs env sm volumeName (volumeFarthest sm.rootfsSize volume.Structure) value :=
  prepareVolumes_records env sm sm.gadgetInfo [] [] hok hnd volumeName volume hmem

/-- In a successful run the iteration of every structure of every volume took
place and its calls are part of the calls of the run. -/
theorem populate_visits (env : Env) (sm : StateMachine)
    (hok : (populatePreparePartitions env sm).result = Result.ok)
    (volumeName : String) (volume : Volume) (hmem : (volumeName, volume) ∈ sm.gadgetInfo)
    (j : Nat) (p : VolumeStructure) (hj : volume.Structure[j]? = some p) :
    ∃ far1 tr1 after,
      (preparePartition env sm volumeName j p far1 tr1).2 =
        (tr1 ++ partitionCalls env sm volumeName j p, Result.ok) ∧
      (populatePreparePartitions env sm).calls =
        tr1 ++ partitionCalls env sm volumeName j p ++ after :=
  prepareVolumes_visits env sm sm.gadgetInfo [] [] hok volumeName volume hmem j p hj

theorem foldl_max_ge (l : List Nat) :
    ∀ init : Nat, init ≤ l.foldl max init ∧ ∀ x ∈ l, x ≤ l.foldl max init := by
  induction l with
  | nil => intro init; simp
  | cons a rest ih =>
    intro init
    obtain ⟨h₁, h₂⟩ := ih (max init a)
    refine ⟨Nat.le_trans (Nat.le_max_left init a) h₁, ?_⟩
    intro x hx
    rcases List.mem_cons.mp hx with rfl | hx
    · exact Nat.le_trans (Nat.le_max_right init x) h₁
    · exact h₂ x hx

theorem foldl_max_attained (l : List Nat) :
    ∀ init : Nat, l.foldl max init = init ∨ l.foldl max init ∈ l := by
  induction l with
  | nil => intro init; exact Or.inl rfl
  | cons a rest ih =>
    intro init
    rcases ih (max init a) with h | h
    · rw [List.foldl_cons, h]
      rcases Nat.le_total init a with hle | hle
      · rw [Nat.max_eq_right hle]; exact Or.inr (List.mem_cons_self _ _)
      · rw [Nat.max_eq_left hle]; exact Or.inl rfl
    · exact Or.inr (List.mem_cons_of_mem _ h)

/-- The farthest offset of a volume bounds the end of each of its structures. -/
theorem structureEnd_le_volumeFarthest (rootfsSize : Nat) (structures : List VolumeStructure)
    (p : VolumeStructure) (hp : p ∈ structures) :
    structureEnd rootfsSize p ≤ volumeFarthest rootfsSize structures :=
  (foldl_max_ge (structures.map (structureEnd rootfsSize)) 0).2 _
    (List.mem_map_of_mem _ hp)

theorem calculated_eq (far : Nat) :
    calculated far = (far / 1048576 * 1048576 + 17 * 1048576) % 2 ^ 64 := by
  simp [calculated, OffsetMiB, uint64Size, Nat.add_mul]

/-! ## The claims on `populatePreparePartitions` and `calculateRootfsSize` -/

/-- C3, counterexample: for a volume without size override whose only structure
ends at byte 1, the run records 17 MiB, whereas rounding 1 up to a MiB multiple
and adding 17 MiB gives 18 MiB. -/
theorem imageSize_not_rounded_up :
    (populatePreparePartitions (quietEnv [] 0 0) oneByteMachine).result = Result.ok ∧
    oneByteMachine.commonFlags.Size.lookup "pc" = none ∧
    volumeFarthest oneByteMachine.rootfsSize
      [mkStructure "" "" (some 0) 1 "" [{ Image := "a.img", Offset := none, Size := 1 }]] = 1 ∧
    (populatePreparePartitions (quietEnv [] 0 0) oneByteMachine).sm.imageSizes.lookup "pc" =
      some 17825792 ∧
    roundedUpPlusSlack 1 = 18874368 ∧
    (populatePreparePartitions (quietEnv [] 0 0) oneByteMachine).sm.imageSizes.lookup "pc" ≠
      some (roundedUpPlusSlack 1) := by
  decide

theorem declaredEnds_map (rootfsSize : Nat) :
    ∀ (structures : List VolumeStructure) (ends : List Nat),
      declaredEnds rootfsSize structures = some ends →
      structures.map (structureEnd rootfsSize) = ends := by
  intro structures
  induction structures with
  | nil =>
    intro ends h
    simp only [declaredEnds, Option.some.injEq] at h
    rw [← h]
    rfl
  | cons p rest ih =>
    intro ends h
    simp only [declaredEnds] at h
    cases ho : p.Offset with
    | none => rw [ho] at h; simp at h
    | some o =>
      cases hr : declaredEnds rootfsSize rest with
      | none => rw [ho, hr] at h; simp at h
      | some tail =>
        rw [ho, hr] at h
        simp only [Option.some.injEq] at h
        rw [← h, List.map_cons, ih tail hr]
        simp [structureEnd, partitionOffset, ho]

theorem declaredEnds_getElem (rootfsSize : Nat) :
    ∀ (structures : List VolumeStructure) (ends : List Nat),
      declaredEnds rootfsSize structures = some ends →
      ∀ (i : Nat) (p : VolumeStructure), structures[i]? = some p →
        ∃ o, p.Offset = some o ∧
          ends[i]? = some ((effectiveSize rootfsSize p + o) % 2 ^ 64) := by
  intro structures
  induction structures with
  | nil => intro ends _ i p hi; simp at hi
  | cons q rest ih =>
    intro ends h i p hi
    simp only [declaredEnds] at h
    cases ho : q.Offset with
    | none => rw [ho] at h; simp at h
    | some o =>
      cases hr : declaredEnds rootfsSize rest with
      | none => rw [ho, hr] at h; simp at h
      | some tail =>
        rw [ho, hr] at h
        simp only [Option.some.injEq] at h
        subst h
        cases i with
        | zero =>
          simp only [List.getElem?_cons_zero, Option.some.injEq] at hi
          subst hi
          exact ⟨o, ho, by simp [uint64Size]⟩
        | succ i =>
          simp only [List.getElem?_cons_succ] at hi ⊢
          exact ih tail hr i p hi

/-- C3, amended: in a successful run, a volume without size override all of
whose structures declare their offset is recorded with
`floor(farthestOffset / 1 MiB) * 1 MiB + 17 MiB` (a 64-bit value, the plain
value when it fits), where `farthestOffset` is the maximum over the structures
of the volume of offset plus effective size, `ends` listing these sums in
declared order.  The names of the volumes are the keys of a map, hence
distinct. -/
theorem imageSize_without_override (env : Env) (sm : StateMachine)
    (hok : (populatePreparePartitions env sm).result = Result.ok)
    (hnd : (sm.gadgetInfo.map Prod.fst).Nodup)
    (volumeName : String) (volume : Volume) (hmem : (volumeName, volume) ∈ sm.gadgetInfo)
    (hno : sm.commonFlags.Size.lookup volumeName = none)
    (ends : List Nat) (hdecl : declaredEnds sm.rootfsSize volume.Structure = some ends) :
    (populatePreparePartitions env sm).sm.imageSizes.lookup volumeName =
      some ((ends.foldl max 0 / 1048576 * 1048576 + 17 * 1048576) % 2 ^ 64) ∧
    (ends.foldl max 0 / 1048576 * 1048576 + 17 * 1048576 < 2 ^ 64 →
      (populatePreparePartitions env sm).sm.imageSizes.lookup volumeName =
        some (ends.foldl max 0 / 1048576 * 1048576 + 17 * 1048576)) ∧
    (∀ (i : Nat) (p : VolumeStructure), volume.Structure[i]? = some p →
      ∃ o, p.Offset = some o ∧
        ends[i]? = some ((effectiveSize sm.rootfsSize p + o) % 2 ^ 64)) ∧
    ends.length = volume.Structure.length ∧
    (∀ e ∈ ends, e ≤ ends.foldl max 0) ∧
    (ends.foldl max 0 = 0 ∨ ends.foldl max 0 ∈ ends) := by
  obtain ⟨value, hval, _, hnone, _⟩ := populate_records env sm hok hnd volumeName volume hmem
  have hmap := declaredEnds_map sm.rootfsSize volume.Structure ends hdecl
  have hv := hnone hno
  rw [calculated_eq, volumeFarthest, hmap] at hv
  refine ⟨by rw [hval, hv], ?_, declaredEnds_getElem sm.rootfsSize volume.Structure ends hdecl,
    ?_, (foldl_max_ge ends 0).2, foldl_max_attained ends 0⟩
  · intro hfit
    rw [hval, hv, Nat.mod_eq_of_lt hfit]
  · rw [← hmap, List.length_map]

/-- Witness of C3, amended: the one-byte volume `pc`, whose structure declares
offset 0, in an environment where every call succeeds. -/
theorem imageSize_without_override_witness :
    (populatePreparePartitions (quietEnv [] 0 0) oneByteMachine).sm.imageSizes.lookup "pc" =
      some (([1].foldl max 0 / 1048576 * 1048576 + 17 * 1048576) % 2 ^ 64) :=
  (imageSize_without_override (quietEnv [] 0 0) oneByteMachine (by decide) (by decide) "pc"
    { Bootloader := "",
      Structure := [mkStructure "" "" (some 0) 1 ""
        [{ Image := "a.img", Offset := none, Size := 1 }]] }
    (by decide) (by decide) [1] (by decide)).1

/-- C4: in a successful run, a volume whose size override parses to `s` is
recorded with `s` when `s` is at least the computed minimum `m` and with `m`
when `s < m`; and every volume, with or without override, is recorded with a
size of at least its computed minimum. -/
theorem imageSize_override (env : Env) (sm : StateMachine)
    (hok : (populatePreparePartitions env sm).result = Result.ok)
    (hnd : (sm.gadgetInfo.map Prod.fst).Nodup)
    (volumeName : String) (volume : Volume) (hmem : (volumeName, volume) ∈ sm.gadgetInfo) :
    (∀ volumeString s, sm.commonFlags.Size.lookup volumeName = some volumeString →
      env.ParseSize volumeString = Except.ok s →
        (calculated (volumeFarthest sm.rootfsSize volume.Structure) ≤ s →
          (populatePreparePartitions env sm).sm.imageSizes.lookup volumeName = some s) ∧
        (s < calculated (volumeFarthest sm.rootfsSize volume.Structure) →
          (populatePreparePartitions env sm).sm.imageSizes.lookup volumeName =
            some (calculated (volumeFarthest sm.rootfsSize volume.Structure)))) ∧
    (∃ value, (populatePreparePartitions env sm).sm.imageSizes.lookup volumeName = some value ∧
      calculated (volumeFarthest sm.rootfsSize volume.Structure) ≤ value) := by
  obtain ⟨value, hval, hle, _, hsome⟩ := populate_records env sm hok hnd volumeName volume hmem
  refine ⟨?_, value, hval, hle⟩
  intro volumeString s hstr hparse
  obtain ⟨h₁, h₂⟩ := hsome volumeString s hstr hparse
  exact ⟨fun h => by rw [hval, h₁ h], fun h => by rw [hval, h₂ h]⟩

/-- Witness of C4: the one-byte volume `pc` (computed minimum 17 MiB) with the
override `20M`, parsed to 20 MiB, is recorded with 20 MiB. -/
theorem imageSize_override_witness :
    (populatePreparePartitions (quietEnv [] 0 20971520) overrideMachine).sm.imageSizes.lookup
      "pc" = some 20971520 :=
  ((imageSize_override (quietEnv [] 0 20971520) overrideMachine (by decide) (by decide) "pc"
    { Bootloader := "",
      Structure := [mkStructure "" "" (some 0) 1 ""
        [{ Image := "a.img", Offset := none, Size := 1 }]] }
    (by decide)).1 "20M" 20971520 (by decide) rfl).1 (by decide)

/-- C5: for the volume `pc` with two 30 MiB structures that declare no offset
(the second with role system-data), `loadGadgetYaml` resolves the second one
to offset 31 MiB, so it ends at 61 MiB, while `populatePreparePartitions`
records an image size of 47 MiB. -/
theorem imageSize_below_resolved_end :
    (loadGadgetYaml (quietEnv implicitGadget 7000 0) freshMachine).result = Result.ok ∧
    (loadGadgetYaml (quietEnv implicitGadget 7000 0) freshMachine).sm.gadgetInfo =
      implicitGadget ∧
    resolveOffset secondImplicit
      (walkStructures freshWalk [firstImplicit]).lastOffset =
      32505856 ∧
    (calculateRootfsSize (quietEnv implicitGadget 7000 0)
      (loadGadgetYaml (quietEnv implicitGadget 7000 0) freshMachine).sm).sm.rootfsSize =
      12593412 ∧
    effectiveSize 12593412 secondImplicit = 31457280 ∧
    (populatePreparePartitions (quietEnv implicitGadget 7000 0)
      (calculateRootfsSize (quietEnv implicitGadget 7000 0)
        (loadGadgetYaml (quietEnv implicitGadget 7000 0) freshMachine).sm).sm).result =
      Result.ok ∧
    (populatePreparePartitions (quietEnv implicitGadget 7000 0)
      (calculateRootfsSize (quietEnv implicitGadget 7000 0)
        (loadGadgetYaml (quietEnv implicitGadget 7000 0) freshMachine).sm).sm).sm.imageSizes.lookup
      "pc" = some 49283072 ∧
    ¬ (32505856 + 31457280 ≤ 49283072) := by
  decide

/-- C6: `calculateRootfsSize` ends with an error exactly when the usage scan
of the rootfs directory fails, and then leaves the build context as it was;
when the scan measures `u` bytes and nothing overflows 64 bits, it ends without
error and sets `rootfsSize` to `p + p / 2` with `p = u + 8 MiB`, changing
nothing else.  Such a size renders as "12.01 MiB" exactly for
`3496 ≤ u ≤ 10485`. -/
theorem calculateRootfsSize_spec (env : Env) (sm : StateMachine) :
    ((calculateRootfsSize env sm).result ≠ Result.ok ↔
      ∃ err, env.Du [] sm.tempDirs.rootfs = Except.error err) ∧
    (∀ err, env.Du [] sm.tempDirs.rootfs = Except.error err →
      (calculateRootfsSize env sm).result =
        Result.error ("Error getting rootfs size: " ++ err.msg) ∧
      (calculateRootfsSize env sm).sm = sm) ∧
    (∀ u, env.Du [] sm.tempDirs.rootfs = Except.ok u →
      (u + 8 * 1048576) + (u + 8 * 1048576) / 2 < 2 ^ 64 →
        (calculateRootfsSize env sm).result = Result.ok ∧
        (calculateRootfsSize env sm).sm =
          { sm with rootfsSize := (u + 8 * 1048576) + (u + 8 * 1048576) / 2 } ∧
        (rendersAs1201MiB (calculateRootfsSize env sm).sm.rootfsSize ↔
          3496 ≤ u ∧ u ≤ 10485)) := by
  unfold calculateRootfsSize
  cases hdu : env.Du [] sm.tempDirs.rootfs with
  | error err =>
    refine ⟨⟨fun _ => ⟨err, rfl⟩, fun _ => by simp⟩, ?_, ?_⟩
    · intro e he
      cases he
      exact ⟨rfl, rfl⟩
    · intro u hu
      cases hu
  | ok u =>
    refine ⟨⟨fun h => absurd rfl h, fun ⟨e, he⟩ => by cases he⟩, ?_, ?_⟩
    · intro e he
      cases he
    · intro v hv hfit
      cases hv
      have hp : (u + 8 * SizeMiB) % uint64Size = u + 8 * 1048576 := by
        unfold SizeMiB uint64Size
        exact Nat.mod_eq_of_lt (by omega)
      have hq : (u + 8 * 1048576 + (u + 8 * 1048576) / 2) % uint64Size =
          u + 8 * 1048576 + (u + 8 * 1048576) / 2 := by
        unfold uint64Size
        exact Nat.mod_eq_of_lt (by omega)
      refine ⟨rfl, by simp only [hp, hq], ?_⟩
      simp only [hp, hq]
      unfold rendersAs1201MiB
      constructor
      · rintro ⟨h₁, h₂⟩
        constructor <;> omega
      · rintro ⟨h₁, h₂⟩
        constructor <;> omega

/-- Witness of C6: a rootfs directory measuring 7000 bytes. -/
theorem calculateRootfsSize_spec_witness :
    (calculateRootfsSize (quietEnv [] 7000 0) freshMachine).result = Result.ok ∧
    (calculateRootfsSize (quietEnv [] 7000 0) freshMachine).sm =
      { freshMachine with rootfsSize := (7000 + 8 * 1048576) + (7000 + 8 * 1048576) / 2 } ∧
    (rendersAs1201MiB (calculateRootfsSize (quietEnv [] 7000 0) freshMachine).sm.rootfsSize ↔
      3496 ≤ 7000 ∧ 7000 ≤ 10485) :=
  (calculateRootfsSize_spec (quietEnv [] 7000 0) freshMachine).2.2 7000 rfl (by decide)

theorem effectiveSize_cases (rootfsSize : Nat) (p : VolumeStructure) :
    ((p.Role = "system-data" ∨ p.Role = "system-seed") →
      effectiveSize rootfsSize p = max p.Size rootfsSize ∧
      (p.Size = 0 → effectiveSize rootfsSize p = rootfsSize) ∧
      (p.Size < rootfsSize → effectiveSize rootfsSize p = rootfsSize) ∧
      (rootfsSize ≤ p.Size → effectiveSize rootfsSize p = p.Size)) ∧
    (¬ (p.Role = "system-data" ∨ p.Role = "system-seed") →
      effectiveSize rootfsSize p = p.Size) := by
  constructor
  · intro hrole
    have h : effectiveSize rootfsSize p = max p.Size rootfsSize := by
      unfold effectiveSize SystemData SystemSeed
      rw [if_pos hrole]
    refine ⟨h, ?_, ?_, ?_⟩
    · intro h0
      rw [h, h0, Nat.max_eq_right (Nat.zero_le _)]
    · intro hlt
      rw [h, Nat.max_eq_right (Nat.le_of_lt hlt)]
    · intro hle
      rw [h, Nat.max_eq_left hle]
  · intro hrole
    unfold effectiveSize SystemData SystemSeed
    rw [if_neg hrole]

theorem preparePartition_filesystem (env : Env) (sm : StateMachine) (volumeName : String)
    (n : Nat) (p : VolumeStructure) (far : Nat) (tr : List Call)
    (hns : ¬ skipSeeded sm.isSeeded p) (hfs : p.Filesystem ≠ "") :
    ∃ issued,
      (preparePartition env sm volumeName n p far tr).2.1 = tr ++ issued ∧
      issued <+:
        [zeroFillCall (partImgPath env sm volumeName n) (effectiveSize sm.rootfsSize p),
          Call.MkfsWithContent p.Filesystem (partImgPath env sm volumeName n) p.Label
            (contentRootPath env sm volumeName n p) (effectiveSize sm.rootfsSize p) 512] ∧
      ((preparePartition env sm volumeName n p far tr).2.2 = Result.ok →
        issued =
          [zeroFillCall (partImgPath env sm volumeName n) (effectiveSize sm.rootfsSize p),
            Call.MkfsWithContent p.Filesystem (partImgPath env sm volumeName n) p.Label
              (contentRootPath env sm volumeName n p) (effectiveSize sm.rootfsSize p) 512]) := by
  have h := (preparePartition_spec env sm volumeName n p far tr).2
  unfold partitionCalls plannedCalls at h
  rw [if_neg hns] at h
  simp only [if_neg hfs] at h
  exact h

theorem preparePartition_bare (env : Env) (sm : StateMachine) (volumeName : String)
    (n : Nat) (p : VolumeStructure) (far : Nat) (tr : List Call)
    (hns : ¬ skipSeeded sm.isSeeded p) (hfs : p.Filesystem = "") :
    ∃ issued,
      (preparePartition env sm volumeName n p far tr).2.1 = tr ++ issued ∧
      issued <+:
        withZeroFill
          (zeroFillCall (partImgPath env sm volumeName n) (effectiveSize sm.rootfsSize p))
          (blobCopies env sm.tempDirs.unpack (partImgPath env sm volumeName n) p.Content 0) ∧
      ((preparePartition env sm volumeName n p far tr).2.2 = Result.ok →
        issued =
          withZeroFill
            (zeroFillCall (partImgPath env sm volumeName n) (effectiveSize sm.rootfsSize p))
            (blobCopies env sm.tempDirs.unpack (partImgPath env sm volumeName n)
              p.Content 0)) := by
  have h := (preparePartition_spec env sm volumeName n p far tr).2
  unfold partitionCalls plannedCalls at h
  rw [if_neg hns] at h
  simp only [if_pos hfs] at h
  exact h

/-- C7: in the partition loop of `populatePreparePartitions`, the effective
size of a structure with role system-data or system-seed is
`max (declared size) rootfsSize` (so `rootfsSize` for a declared size of 0 or
below `rootfsSize`, the declared size otherwise), and the declared size for
every other role.  This is the size added to the offset in the
`farthestOffset` accumulation, the `bs=` value of every zero-fill issued for
it, and the size handed to the formatter. -/
theorem effectiveSize_used (env : Env) (sm : StateMachine) (volumeName : String) (n : Nat)
    (p : VolumeStructure) (far : Nat) (tr : List Call) :
    ((p.Role = "system-data" ∨ p.Role = "system-seed") →
      effectiveSize sm.rootfsSize p = max p.Size sm.rootfsSize ∧
      (p.Size = 0 → effectiveSize sm.rootfsSize p = sm.rootfsSize) ∧
      (p.Size < sm.rootfsSize → effectiveSize sm.rootfsSize p = sm.rootfsSize) ∧
      (sm.rootfsSize ≤ p.Size → effectiveSize sm.rootfsSize p = p.Size)) ∧
    (¬ (p.Role = "system-data" ∨ p.Role = "system-seed") →
      effectiveSize sm.rootfsSize p = p.Size) ∧
    (sizePartition sm.rootfsSize p).Size = effectiveSize sm.rootfsSize p ∧
    (preparePartition env sm volumeName n p far tr).1 =
      max far ((effectiveSize sm.rootfsSize p + partitionOffset p) % 2 ^ 64) ∧
    (¬ skipSeeded sm.isSeeded p → p.Filesystem ≠ "" →
      ∃ issued,
        (preparePartition env sm volumeName n p far tr).2.1 = tr ++ issued ∧
        issued <+:
          [zeroFillCall (partImgPath env sm volumeName n) (effectiveSize sm.rootfsSize p),
            Call.MkfsWithContent p.Filesystem (partImgPath env sm volumeName n) p.Label
              (contentRootPath env sm volumeName n p) (effectiveSize sm.rootfsSize p) 512] ∧
        ((preparePartition env sm volumeName n p far tr).2.2 = Result.ok →
          issued =
            [zeroFillCall (partImgPath env sm volumeName n) (effectiveSize sm.rootfsSize p),
              Call.MkfsWithContent p.Filesystem (partImgPath env sm volumeName n) p.Label
                (contentRootPath env sm volumeName n p)
                (effectiveSize sm.rootfsSize p) 512])) ∧
    (¬ skipSeeded sm.isSeeded p → p.Filesystem = "" →
      ∃ issued,
        (preparePartition env sm volumeName n p far tr).2.1 = tr ++ issued ∧
        issued <+:
          withZeroFill
            (zeroFillCall (partImgPath env sm volumeName n) (effectiveSize sm.rootfsSize p))
            (blobCopies env sm.tempDirs.unpack (partImgPath env sm volumeName n)
              p.Content 0) ∧
        ((preparePartition env sm volumeName n p far tr).2.2 = Result.ok →
          issued =
            withZeroFill
              (zeroFillCall (partImgPath env sm volumeName n)
                (effectiveSize sm.rootfsSize p))
              (blobCopies env sm.tempDirs.unpack (partImgPath env sm volumeName n)
                p.Content 0))) := by
  refine ⟨(effectiveSize_cases sm.rootfsSize p).1, (effectiveSize_cases sm.rootfsSize p).2,
    ?_, ?_, ?_, ?_⟩
  · rw [sizePartition_eq]
  · exact (preparePartition_spec env sm volumeName n p far tr).1
  · exact preparePartition_filesystem env sm volumeName n p far tr
  · exact preparePartition_bare env sm volumeName n p far tr

/-- Witness of C7: a system-data ext4 structure of declared size 0 with
`rootfsSize` = 12593412 in a build context that is not seeded. -/
theorem effectiveSize_used_witness :
    ∃ issued,
      (preparePartition (quietEnv [] 0 0) { freshMachine with rootfsSize := 12593412 } "pc" 1
        (mkStructure "system-data" "writable" (some 2097152) 0 "ext4" []) 0 []).2.1 =
          [] ++ issued ∧
      issued <+:
        [zeroFillCall "w/volumes/pc/part1.img" 12593412,
          Call.MkfsWithContent "ext4" "w/volumes/pc/part1.img" "writable" "w/root"
            12593412 512] ∧
      ((preparePartition (quietEnv [] 0 0) { freshMachine with rootfsSize := 12593412 } "pc" 1
        (mkStructure "system-data" "writable" (some 2097152) 0 "ext4" []) 0 []).2.2 =
          Result.ok →
        issued =
          [zeroFillCall "w/volumes/pc/part1.img" 12593412,
            Call.MkfsWithContent "ext4" "w/volumes/pc/part1.img" "writable" "w/root"
              12593412 512]) :=
  (effectiveSize_used (quietEnv [] 0 0) { freshMachine with rootfsSize := 12593412 } "pc" 1
    (mkStructure "system-data" "writable" (some 2097152) 0 "ext4" []) 0 []).2.2.2.2.1
    (by decide) (by decide)

/-- C8: a run over the volume `pc` whose only structure is bare with an empty
content list ends without error and without having issued a single call: no
zero-fill, hence no image file `part0.img`, although the structure is not
passed over by the seeded special case. -/
theorem emptyBare_no_zero_fill :
    (populatePreparePartitions (quietEnv [] 0 0) emptyBareMachine).result = Result.ok ∧
    (populatePreparePartitions (quietEnv [] 0 0) emptyBareMachine).calls = [] ∧
    emptyBareMachine.gadgetInfo =
      [("pc", { Bootloader := "",
                Structure := [mkStructure "" "" (some 1048576) 1048576 "" []] })] ∧
    ¬ skipSeeded emptyBareMachine.isSeeded (mkStructure "" "" (some 1048576) 1048576 "" []) ∧
    zeroFillCall (partImgPath (quietEnv [] 0 0) emptyBareMachine "pc" 0) 1048576 ∉
      (populatePreparePartitions (quietEnv [] 0 0) emptyBareMachine).calls := by
  decide

theorem contentOffsets_length :
    ∀ (contents : List VolumeContent) (start : Nat),
      (contentOffsets contents start).length = contents.length := by
  intro contents
  induction contents with
  | nil => intro start; rfl
  | cons c rest ih =>
    intro start
    simp [contentOffsets, ih]

theorem contentOffsets_head (c : VolumeContent) (rest : List VolumeContent) (start : Nat) :
    (contentOffsets (c :: rest) start)[0]? =
      some (match c.Offset with
        | some o => o
        | none => start) := by
  cases hc : c.Offset <;> simp [contentOffsets, hc]

theorem contentOffsets_next :
    ∀ (contents : List VolumeContent) (start k : Nat) (c d : VolumeContent) (o : Nat),
      contents[k]? = some c → contents[k + 1]? = some d →
      (contentOffsets contents start)[k]? = some o →
      (contentOffsets contents start)[k + 1]? =
        some (match d.Offset with
          | some x => x
          | none => (o + c.Size) % 2 ^ 64) := by
  intro contents
  induction contents with
  | nil => intro start k c d o hc; simp at hc
  | cons e rest ih =>
    intro start k c d o hc hd ho
    cases k with
    | zero =>
      simp only [List.getElem?_cons_zero, Option.some.injEq] at hc
      subst hc
      simp only [zero_add, List.getElem?_cons_succ] at hd
      cases rest with
      | nil => simp at hd
      | cons f rest2 =>
        simp only [List.getElem?_cons_zero, Option.some.injEq] at hd
        subst hd
        rw [contentOffsets_head] at ho
        simp only [Option.some.injEq] at ho
        subst ho
        simp only [contentOffsets, zero_add, List.getElem?_cons_succ, List.getElem?_cons_zero,
          uint64Size]
        rfl
    | succ k =>
      simp only [List.getElem?_cons_succ] at hc hd
      simp only [contentOffsets, List.getElem?_cons_succ] at ho ⊢
      exact ih _ k c d o hc hd ho

/-- C9: for a bare structure that the seeded special case does not pass over,
every iteration of the partition loop issues, while no call fails, for each
content entry in declared order a zero-fill followed by one blob copy from
`unpack/gadget/<image>` into the image of the structure with `bs=1`,
`conv=sparse,notrunc` and `seek=` the placement offset; a successful run
contains all of them.  There is one placement offset per entry: the declared
offset of the entry, else 0 for the first entry and the previous placement
plus the previous size (a 64-bit sum) for a later one. -/
theorem bare_blob_copies (env : Env) (sm : StateMachine) (volumeName : String) (n : Nat)
    (p : VolumeStructure) (hns : ¬ skipSeeded sm.isSeeded p) (hbare : p.Filesystem = "") :
    (∀ far tr, ∃ issued,
      (preparePartition env sm volumeName n p far tr).2.1 = tr ++ issued ∧
      issued <+:
        withZeroFill
          (zeroFillCall (partImgPath env sm volumeName n) (effectiveSize sm.rootfsSize p))
          (blobCopies env sm.tempDirs.unpack (partImgPath env sm volumeName n) p.Content 0) ∧
      ((preparePartition env sm volumeName n p far tr).2.2 = Result.ok →
        issued =
          withZeroFill
            (zeroFillCall (partImgPath env sm volumeName n) (effectiveSize sm.rootfsSize p))
            (blobCopies env sm.tempDirs.unpack (partImgPath env sm volumeName n)
              p.Content 0))) ∧
    (∀ volume, (volumeName, volume) ∈ sm.gadgetInfo → volume.Structure[n]? = some p →
      (populatePreparePartitions env sm).result = Result.ok →
      ∃ before after,
        (populatePreparePartitions env sm).calls =
          before ++
            withZeroFill
              (zeroFillCall (partImgPath env sm volumeName n) (effectiveSize sm.rootfsSize p))
              (blobCopies env sm.tempDirs.unpack (partImgPath env sm volumeName n)
                p.Content 0) ++ after) ∧
    blobCopies env sm.tempDirs.unpack (partImgPath env sm volumeName n) p.Content 0 =
      List.zipWith
        (fun c o => Call.CopyBlob
          ["if=" ++ env.filepathJoin [sm.tempDirs.unpack, "gadget", c.Image],
            "of=" ++ env.filepathJoin
              [sm.tempDirs.volumes, volumeName, "part" ++ Itoa n ++ ".img"],
            "bs=1", "seek=" ++ FormatUint o, "conv=sparse,notrunc"])
        p.Content (contentOffsets p.Content 0) ∧
    (contentOffsets p.Content 0).length = p.Content.length ∧
    (∀ c, p.Content[0]? = some c →
      (contentOffsets p.Content 0)[0]? =
        some (match c.Offset with
          | some o => o
          | none => 0)) ∧
    (∀ k c d o, p.Content[k]? = some c → p.Content[k + 1]? = some d →
      (contentOffsets p.Content 0)[k]? = some o →
      (contentOffsets p.Content 0)[k + 1]? =
        some (match d.Offset with
          | some x => x
          | none => (o + c.Size) % 2 ^ 64)) := by
  refine ⟨fun far tr => preparePartition_bare env sm volumeName n p far tr hns hbare, ?_, rfl,
    contentOffsets_length p.Content 0, ?_, contentOffsets_next p.Content 0⟩
  · intro volume hmem hn hok
    obtain ⟨_, tr1, after, _, hfin⟩ := populate_visits env sm hok volumeName volume hmem n p hn
    refine ⟨tr1, after, ?_⟩
    rw [hfin]
    unfold partitionCalls plannedCalls
    rw [if_neg hns]
    simp only [if_pos hbare]
  · intro c hc
    cases hcont : p.Content with
    | nil => rw [hcont] at hc; simp at hc
    | cons e rest =>
      rw [hcont] at hc
      simp only [List.getElem?_cons_zero, Option.some.injEq] at hc
      subst hc
      exact contentOffsets_head e rest 0

/-- Witness of C9: the bare structure `threeBlobs` of volume `pc` in a build
context that is not seeded. -/
theorem bare_blob_copies_witness :
    ¬ skipSeeded blobMachine.isSeeded threeBlobs ∧ threeBlobs.Filesystem = "" ∧
    (contentOffsets threeBlobs.Content 0).length = threeBlobs.Content.length :=
  ⟨by decide, by decide,
    (bare_blob_copies (quietEnv [] 0 0) blobMachine "pc" 0 threeBlobs (by decide)
      (by decide)).2.2.2.1⟩

/-- The run over `threeBlobs`, call by call: the placements are 0, the declared
512 and 512 + 50. -/
theorem blobMachine_calls :
    (populatePreparePartitions (quietEnv [] 0 0) blobMachine).calls =
      [Call.CopyBlob ["if=/dev/zero", "of=w/volumes/pc/part0.img", "count=0", "bs=4096",
         "seek=1"],
       Call.CopyBlob ["if=w/unpack/gadget/a.img", "of=w/volumes/pc/part0.img", "bs=1",
         "seek=0", "conv=sparse,notrunc"],
       Call.CopyBlob ["if=/dev/zero", "of=w/volumes/pc/part0.img", "count=0", "bs=4096",
         "seek=1"],
       Call.CopyBlob ["if=w/unpack/gadget/b.img", "of=w/volumes/pc/part0.img", "bs=1",
         "seek=512", "conv=sparse,notrunc"],
       Call.CopyBlob ["if=/dev/zero", "of=w/volumes/pc/part0.img", "count=0", "bs=4096",
         "seek=1"],
       Call.CopyBlob ["if=w/unpack/gadget/c.img", "of=w/volumes/pc/part0.img", "bs=1",
         "seek=562", "conv=sparse,notrunc"]] := by
  decide

theorem copyContents_first (env : Env) (unpack partImg : String) (size : Nat)
    (c : VolumeContent) (rest : List VolumeContent) (start : Nat) (tr : List Call) :
    ∃ more, (copyContents env unpack partImg size (c :: rest) start tr).1 =
      tr ++ zeroFillCall partImg size :: more := by
  obtain ⟨issued, h₁, h₂, _⟩ := copyContents_calls env unpack partImg size (c :: rest) start tr
  rw [blobCopies_cons] at h₂
  simp only [withZeroFill] at h₂
  cases issued with
  | nil =>
    exfalso
    simp only [copyContents, List.append_nil] at h₁
    split at h₁
    · simp at h₁
    · split at h₁
      · simp at h₁
      · obtain ⟨issued2, h₃, _, _⟩ := copyContents_calls env unpack partImg size rest
          (((match c.Offset with
            | some o => o
            | none => start) + c.Size) % uint64Size)
          (tr ++ [Call.CopyBlob (zeroArgs partImg size)] ++
            [Call.CopyBlob (blobArgs (env.filepathJoin [unpack, "gadget", c.Image]) partImg
              (match c.Offset with
                | some o => o
                | none => start))])
        rw [h₃] at h₁
        simp at h₁
  | cons z more =>
    obtain ⟨t, ht⟩ := h₂
    simp only [List.cons_append, List.cons.injEq] at ht
    exact ⟨more, by rw [h₁, ht.1]⟩

theorem materialize_first (env : Env) (sm : StateMachine) (volumeName : String) (n : Nat)
    (p : VolumeStructure) (tr : List Call) (h : p.Filesystem ≠ "" ∨ p.Content ≠ []) :
    ∃ more, (materialize env sm volumeName n p tr).1 =
      tr ++ zeroFillCall (partImgPath env sm volumeName n) p.Size :: more := by
  unfold materialize
  by_cases hfs : p.Filesystem = ""
  · simp only [hfs, if_true]
    rcases h with h | h
    · exact absurd hfs h
    · cases hc : p.Content with
      | nil => exact absurd hc h
      | cons c rest => exact copyContents_first env _ _ _ c rest 0 tr
  · simp only [hfs, if_false]
    split
    · exact ⟨[], rfl⟩
    · split
      · exact ⟨[Call.MkfsWithContent p.Filesystem (partImgPath env sm volumeName n) p.Label
          (contentRootPath env sm volumeName n p) p.Size 512],
          by simp [partImgPath, contentRootPath, zeroArgs_call]⟩
      · exact ⟨[Call.MkfsWithContent p.Filesystem (partImgPath env sm volumeName n) p.Label
          (contentRootPath env sm volumeName n p) p.Size 512],
          by simp [partImgPath, contentRootPath, zeroArgs_call]⟩

/-- C10, counterexample: in a seeded build context, a vfat structure with role
system-seed and label `system-boot` is passed over: the run ends without error
and without any call. -/
theorem seed_labelled_boot_skipped :
    seededMachine.isSeeded = true ∧
    seededMachine.gadgetInfo =
      [("pc", { Bootloader := "",
                Structure := [mkStructure "system-seed" "system-boot" (some 1048576) 1048576
                  "vfat" []] })] ∧
    (populatePreparePartitions (quietEnv [] 0 0) seededMachine).result = Result.ok ∧
    (populatePreparePartitions (quietEnv [] 0 0) seededMachine).calls = [] ∧
    (preparePartition (quietEnv [] 0 0) seededMachine "pc" 0
      (mkStructure "system-seed" "system-boot" (some 1048576) 1048576 "vfat" []) 0 []).2 =
        ([], Result.ok) := by
  decide

/-- C10, amended: an iteration of the partition loop passes over its structure,
issuing no call and going on to the next structure, if and only if the image is
seeded and the role of the structure is system-boot, system-data or system-save
or its label is system-boot; a structure that is not passed over and has a
filesystem or at least one content entry gets its zero-fill issued first.
Hence a system-seed structure is passed over exactly when the image is seeded
and its label is system-boot, and nothing is passed over when the image is not
seeded. -/
theorem seeded_skip_rule (env : Env) (sm : StateMachine) (volumeName : String) (n : Nat)
    (p : VolumeStructure) (far : Nat) (tr : List Call) :
    (skipSeeded sm.isSeeded (sizePartition sm.rootfsSize p) ↔
      sm.isSeeded = true ∧
        (p.Role = "system-boot" ∨ p.Role = "system-data" ∨ p.Role = "system-save" ∨
          p.Label = "system-boot")) ∧
    (skipSeeded sm.isSeeded (sizePartition sm.rootfsSize p) →
      (preparePartition env sm volumeName n p far tr).2 = (tr, Result.ok)) ∧
    (¬ skipSeeded sm.isSeeded (sizePartition sm.rootfsSize p) →
      (p.Filesystem ≠ "" ∨ p.Content ≠ []) →
      ∃ more, (preparePartition env sm volumeName n p far tr).2.1 =
        tr ++ zeroFillCall (partImgPath env sm volumeName n)
          (effectiveSize sm.rootfsSize p) :: more) ∧
    (p.Role = "system-seed" →
      (skipSeeded sm.isSeeded (sizePartition sm.rootfsSize p) ↔
        sm.isSeeded = true ∧ p.Label = "system-boot")) ∧
    (sm.isSeeded = false → ¬ skipSeeded sm.isSeeded (sizePartition sm.rootfsSize p)) := by
  rw [sizePartition_eq]
  refine ⟨Iff.rfl, ?_, ?_, ?_, ?_⟩
  · intro hs
    unfold preparePartition
    rw [sizePartition_eq, if_pos hs]
  · intro hns h
    unfold preparePartition
    rw [sizePartition_eq, if_neg hns]
    exact materialize_first env sm volumeName n
      { p with Size := effectiveSize sm.rootfsSize p } tr h
  · intro hseed
    unfold skipSeeded SystemBoot SystemData SystemSave
    simp [hseed]
  · intro hfalse
    unfold skipSeeded
    simp [hfalse]

/-- Witness of C10, amended: in a seeded build context the iteration over a
system-boot structure leaves the calls as they were and goes on. -/
theorem seeded_skip_rule_witness :
    (preparePartition (quietEnv [] 0 0) seededMachine "pc" 0
      (mkStructure "system-boot" "" (some 1048576) 1048576 "vfat" []) 0 []).2 =
        ([], Result.ok) :=
  (seeded_skip_rule (quietEnv [] 0 0) seededMachine "pc" 0
    (mkStructure "system-boot" "" (some 1048576) 1048576 "vfat" []) 0 []).2.1 (by decide)

/-! ## The formatter call -/

/-- C11: for a structure with a filesystem that the seeded special case does
not pass over, every iteration of the partition loop issues the zero-fill and
then, when the zero-fill succeeded, one formatter call with the filesystem
type, the image path `volumes/<volumeName>/part<n>.img`, the label, the content
directory, the effective size and sector size 512, and nothing else (no blob
copy); a successful run contains both calls, the formatter right after the
zero-fill.  The content directory is the shared rootfs directory for the roles
system-data and system-seed and `volumes/<volumeName>/part<n>` otherwise. -/
theorem filesystem_formatter (env : Env) (sm : StateMachine) (volumeName : String) (n : Nat)
    (p : VolumeStructure) (hns : ¬ skipSeeded sm.isSeeded p) (hfs : p.Filesystem ≠ "") :
    (∀ far tr, ∃ issued,
      (preparePartition env sm volumeName n p far tr).2.1 = tr ++ issued ∧
      issued <+:
        [zeroFillCall (partImgPath env sm volumeName n) (effectiveSize sm.rootfsSize p),
          Call.MkfsWithContent p.Filesystem (partImgPath env sm volumeName n) p.Label
            (contentRootPath env sm volumeName n p) (effectiveSize sm.rootfsSize p) 512] ∧
      ((preparePartition env sm volumeName n p far tr).2.2 = Result.ok →
        issued =
          [zeroFillCall (partImgPath env sm volumeName n) (effectiveSize sm.rootfsSize p),
            Call.MkfsWithContent p.Filesystem (partImgPath env sm volumeName n) p.Label
              (contentRootPath env sm volumeName n p) (effectiveSize sm.rootfsSize p) 512]) ∧
      (∀ c ∈ issued,
        c = zeroFillCall (partImgPath env sm volumeName n) (effectiveSize sm.rootfsSize p) ∨
        c = Call.MkfsWithContent p.Filesystem (partImgPath env sm volumeName n) p.Label
          (contentRootPath env sm volumeName n p) (effectiveSize sm.rootfsSize p) 512)) ∧
    (∀ volume, (volumeName, volume) ∈ sm.gadgetInfo → volume.Structure[n]? = some p →
      (populatePreparePartitions env sm).result = Result.ok →
      ∃ before after,
        (populatePreparePartitions env sm).calls =
          before ++
            [zeroFillCall (partImgPath env sm volumeName n) (effectiveSize sm.rootfsSize p),
              Call.MkfsWithContent p.Filesystem (partImgPath env sm volumeName n) p.Label
                (contentRootPath env sm volumeName n p)
                (effectiveSize sm.rootfsSize p) 512] ++ after) ∧
    partImgPath env sm volumeName n =
      env.filepathJoin [sm.tempDirs.volumes, volumeName, "part" ++ Itoa n ++ ".img"] ∧
    ((p.Role = "system-data" ∨ p.Role = "system-seed") →
      contentRootPath env sm volumeName n p = sm.tempDirs.rootfs) ∧
    (¬ (p.Role = "system-data" ∨ p.Role = "system-seed") →
      contentRootPath env sm volumeName n p =
        env.filepathJoin [sm.tempDirs.volumes, volumeName, "part" ++ Itoa n]) := by
  refine ⟨?_, ?_, rfl, ?_, ?_⟩
  · intro far tr
    obtain ⟨issued, h₁, h₂, h₃⟩ :=
      preparePartition_filesystem env sm volumeName n p far tr hns hfs
    refine ⟨issued, h₁, h₂, h₃, ?_⟩
    intro c hc
    have hmem := h₂.subset hc
    simp only [List.mem_cons, List.mem_singleton, List.not_mem_nil, or_false] at hmem
    exact hmem
  · intro volume hmem hn hok
    obtain ⟨_, tr1, after, _, hfin⟩ := populate_visits env sm hok volumeName volume hmem n p hn
    refine ⟨tr1, after, ?_⟩
    rw [hfin]
    unfold partitionCalls plannedCalls
    rw [if_neg hns]
    simp only [if_neg hfs]
  · intro hrole
    unfold contentRootPath SystemSeed SystemData
    rw [if_pos hrole.symm]
  · intro hrole
    unfold contentRootPath SystemSeed SystemData
    rw [if_neg (fun h => hrole h.symm)]

/-- Witness of C11: the ext4 system-data structure of volume `pc` in a build
context that is not seeded, with `rootfsSize` = 12593412. -/
theorem filesystem_formatter_witness :
    ∃ before after,
      (populatePreparePartitions (quietEnv [] 0 0) noBootMachine).calls =
        before ++
          [zeroFillCall "w/volumes/pc/part0.img" 12593412,
            Call.MkfsWithContent "ext4" "w/volumes/pc/part0.img" "writable" "w/root"
              12593412 512] ++ after :=
  (filesystem_formatter (quietEnv [] 0 0) noBootMachine "pc" 0
    (mkStructure "system-data" "writable" (some 1048576) 0 "ext4" []) (by decide)
    (by decide)).2.1
    { Bootloader := "",
      Structure := [mkStructure "system-data" "writable" (some 1048576) 0 "ext4" []] }
    (by decide) (by decide) (by decide)

/-! ## `populateBootfsContents` -/

theorem scanStructures_eq (volumeName : String) (volume : Volume) :
    ∀ (structures : List VolumeStructure) (found : String × Option Volume),
      scanStructures volumeName volume found structures =
        if ∃ s ∈ structures, isBootStructure s then (volumeName, some volume) else found := by
  intro structures
  induction structures with
  | nil => intro found; simp [scanStructures]
  | cons s rest ih =>
    intro found
    simp only [scanStructures]
    by_cases hs : isBootStructure s
    · rw [if_pos hs, ih]
      have hex : ∃ x ∈ s :: rest, isBootStructure x := ⟨s, List.mem_cons_self s rest, hs⟩
      rw [if_pos hex]
      split <;> rfl
    · rw [if_neg hs, ih]
      by_cases hrest : ∃ x ∈ rest, isBootStructure x
      · obtain ⟨x, hx, hbx⟩ := hrest
        rw [if_pos ⟨x, hx, hbx⟩, if_pos ⟨x, List.mem_cons_of_mem s hx, hbx⟩]
      · rw [if_neg hrest, if_neg]
        rintro ⟨x, hx, hbx⟩
        rcases List.mem_cons.mp hx with rfl | hx
        · exact hs hbx
        · exact hrest ⟨x, hx, hbx⟩

/-- Without any boot structure the scan leaves `systemVolumeName` and
`systemVolume` as they were. -/
theorem scanVolumes_no_boot :
    ∀ (volumes : List (String × Volume)) (found : String × Option Volume),
      (∀ nv ∈ volumes, ∀ s ∈ nv.2.Structure, ¬ isBootStructure s) →
      scanVolumes volumes found = found := by
  intro volumes
  induction volumes with
  | nil => intro found _; rfl
  | cons nv rest ih =>
    intro found h
    rcases nv with ⟨volumeName, volume⟩
    simp only [scanVolumes]
    rw [scanStructures_eq, if_neg, ih found (fun x hx => h x (List.mem_cons_of_mem _ hx))]
    rintro ⟨s, hs, hb⟩
    exact h (volumeName, volume) (List.mem_cons_self _ _) s hs hb

/-- The scan only ever picks a volume of the model that has a boot structure. -/
theorem scanVolumes_sound (all : List (String × Volume)) :
    ∀ (volumes : List (String × Volume)) (found : String × Option Volume),
      (∀ nv ∈ volumes, nv ∈ all) →
      (∀ v, found.2 = some v → (found.1, v) ∈ all ∧ ∃ s ∈ v.Structure, isBootStructure s) →
      ∀ v, (scanVolumes volumes found).2 = some v →
        ((scanVolumes volumes found).1, v) ∈ all ∧ ∃ s ∈ v.Structure, isBootStructure s := by
  intro volumes
  induction volumes with
  | nil => intro found _ hfound; exact hfound
  | cons nv rest ih =>
    intro found hsub hfound
    rcases nv with ⟨volumeName, volume⟩
    simp only [scanVolumes]
    apply ih _ (fun x hx => hsub x (List.mem_cons_of_mem _ hx))
    rw [scanStructures_eq]
    by_cases hex : ∃ s ∈ volume.Structure, isBootStructure s
    · rw [if_pos hex]
      intro v hv
      simp only [Option.some.injEq] at hv
      subst hv
      exact ⟨hsub _ (List.mem_cons_self _ _), hex⟩
    · rw [if_neg hex]
      exact hfound

/-- The scan finds a system volume as soon as some volume has a boot structure. -/
theorem scanVolumes_complete :
    ∀ (volumes : List (String × Volume)) (found : String × Option Volume),
      (found.2 ≠ none ∨ ∃ nv ∈ volumes, ∃ s ∈ nv.2.Structure, isBootStructure s) →
      (scanVolumes volumes found).2 ≠ none := by
  intro volumes
  induction volumes with
  | nil =>
    intro found h
    rcases h with h | ⟨nv, hnv, _⟩
    · exact h
    · simp at hnv
  | cons nv rest ih =>
    intro found h
    rcases nv with ⟨volumeName, volume⟩
    simp only [scanVolumes]
    apply ih
    rw [scanStructures_eq]
    by_cases hex : ∃ s ∈ volume.Structure, isBootStructure s
    · rw [if_pos hex]
      exact Or.inl (by simp)
    · rw [if_neg hex]
      rcases h with h | ⟨x, hx, s, hs, hb⟩
      · exact Or.inl h
      · rcases List.mem_cons.mp hx with rfl | hx
        · exact absurd ⟨s, hs, hb⟩ hex
        · exact Or.inr ⟨x, hx, s, hs, hb⟩

theorem writeStructures_calls (env : Env) (sm : StateMachine) (systemVolumeName : String) :
    ∀ (structures : List LaidOutStructure) (ii : Nat) (tr : List Call),
      ∃ issued,
        (writeStructures env sm systemVolumeName structures ii tr).1 = tr ++ issued ∧
        issued <+: bootWrites env sm systemVolumeName structures ii ∧
        ((writeStructures env sm systemVolumeName structures ii tr).2 = Result.ok →
          issued = bootWrites env sm systemVolumeName structures ii) := by
  intro structures
  induction structures with
  | nil =>
    intro ii tr
    exact ⟨[], by simp [writeStructures], by simp [bootWrites], by simp [bootWrites]⟩
  | cons s rest ih =>
    intro ii tr
    simp only [writeStructures, bootWrites, structureWrites]
    by_cases hfs : env.HasFilesystem s.VolumeStructure = true
    · simp only [hfs, if_true]
      cases h1 : env.NewMountedFilesystemWriter tr s with
      | some err =>
        exact ⟨[Call.NewMountedFilesystemWriter s], by simp, ⟨_, rfl⟩, by simp⟩
      | none =>
        simp only []
        have htarget : (if s.VolumeStructure.Role = "system-seed" then sm.tempDirs.rootfs
            else env.filepathJoin [sm.tempDirs.volumes, systemVolumeName, "part" ++ Itoa ii]) =
            bootTargetDir env sm systemVolumeName ii s := rfl
        rw [htarget]
        cases h2 : env.Write (tr ++ [Call.NewMountedFilesystemWriter s]) s
            (bootTargetDir env sm systemVolumeName ii s) [] with
        | some err =>
          exact ⟨[Call.NewMountedFilesystemWriter s,
            Call.Write s (bootTargetDir env sm systemVolumeName ii s) []], by simp,
            ⟨_, rfl⟩, by simp⟩
        | none =>
          simp only []
          obtain ⟨issued, h₁, h₂, h₃⟩ := ih (ii + 1)
            (tr ++ [Call.NewMountedFilesystemWriter s] ++
              [Call.Write s (bootTargetDir env sm systemVolumeName ii s) []])
          refine ⟨Call.NewMountedFilesystemWriter s ::
            Call.Write s (bootTargetDir env sm systemVolumeName ii s) [] :: issued, ?_, ?_, ?_⟩
          · rw [h₁]; simp
          · obtain ⟨t, ht⟩ := h₂
            exact ⟨t, by simp [← ht]⟩
          · intro hok
            rw [h₃ hok]
            rfl
    · simp only [hfs, if_false, List.nil_append]
      exact ih (ii + 1) tr

theorem bootWrites_segment (env : Env) (sm : StateMachine) (systemVolumeName : String) :
    ∀ (structures : List LaidOutStructure) (ii j : Nat) (s : LaidOutStructure),
      structures[j]? = some s →
      ∃ before after,
        bootWrites env sm systemVolumeName structures ii =
          before ++ structureWrites env sm systemVolumeName (ii + j) s ++ after := by
  intro structures
  induction structures with
  | nil => intro ii j s hj; simp at hj
  | cons x rest ih =>
    intro ii j s hj
    cases j with
    | zero =>
      simp only [List.getElem?_cons_zero, Option.some.injEq] at hj
      subst hj
      exact ⟨[], bootWrites env sm systemVolumeName rest (ii + 1), by simp [bootWrites]⟩
    | succ j =>
      simp only [List.getElem?_cons_succ] at hj
      obtain ⟨before, after, h⟩ := ih (ii + 1) j s hj
      have hidx : ii + 1 + j = ii + (j + 1) := by omega
      rw [hidx] at h
      exact ⟨structureWrites env sm systemVolumeName ii x ++ before, after,
        by simp [bootWrites, h]⟩

/-- C12: when the layout of the system volume succeeds, `populateBootfsContents`
issues, while no call fails, for the laid-out structures in order: for one with
a filesystem at index `i` a writer and exactly one write, into the shared
rootfs directory when its role is system-seed and into
`volumes/<systemVolumeName>/part<i>` otherwise; for a structure without
filesystem nothing.  A successful run contains the calls of every structure.
The system volume handed to the layout is a volume of the model, one with
a structure of role or label system-boot, and there is one whenever the model
has such a volume. -/
theorem bootfs_writes (env : Env) (sm : StateMachine) (laidOutVolume : LaidOutVolume)
    (hlay : env.LayoutVolume [] (env.filepathJoin [sm.tempDirs.unpack, "gadget"])
      (env.filepathJoin [sm.tempDirs.unpack, "kernel"])
      (scanVolumes sm.gadgetInfo ("", none)).2 false = Except.ok laidOutVolume) :
    (∃ issued,
      (populateBootfsContents env sm).calls =
        Call.LayoutVolume (env.filepathJoin [sm.tempDirs.unpack, "gadget"])
          (env.filepathJoin [sm.tempDirs.unpack, "kernel"])
          (scanVolumes sm.gadgetInfo ("", none)).2 false :: issued ∧
      issued <+: bootWrites env sm (scanVolumes sm.gadgetInfo ("", none)).1
        laidOutVolume.LaidOutStructure 0 ∧
      ((populateBootfsContents env sm).result = Result.ok →
        issued = bootWrites env sm (scanVolumes sm.gadgetInfo ("", none)).1
          laidOutVolume.LaidOutStructure 0)) ∧
    (∀ i s,
      (env.HasFilesystem s.VolumeStructure = true → s.VolumeStructure.Role = "system-seed" →
        structureWrites env sm (scanVolumes sm.gadgetInfo ("", none)).1 i s =
          [Call.NewMountedFilesystemWriter s, Call.Write s sm.tempDirs.rootfs []]) ∧
      (env.HasFilesystem s.VolumeStructure = true → s.VolumeStructure.Role ≠ "system-seed" →
        structureWrites env sm (scanVolumes sm.gadgetInfo ("", none)).1 i s =
          [Call.NewMountedFilesystemWriter s,
            Call.Write s (env.filepathJoin [sm.tempDirs.volumes,
              (scanVolumes sm.gadgetInfo ("", none)).1, "part" ++ Itoa i]) []]) ∧
      (env.HasFilesystem s.VolumeStructure = false →
        structureWrites env sm (scanVolumes sm.gadgetInfo ("", none)).1 i s = [])) ∧
    ((populateBootfsContents env sm).result = Result.ok →
      ∀ i s, laidOutVolume.LaidOutStructure[i]? = some s →
        ∃ before after,
          (populateBootfsContents env sm).calls =
            before ++ structureWrites env sm (scanVolumes sm.gadgetInfo ("", none)).1 i s
              ++ after) ∧
    (∀ v, (scanVolumes sm.gadgetInfo ("", none)).2 = some v →
      ((scanVolumes sm.gadgetInfo ("", none)).1, v) ∈ sm.gadgetInfo ∧
      ∃ s ∈ v.Structure, s.Role = "system-boot" ∨ s.Label = "system-boot") ∧
    ((∃ nv ∈ sm.gadgetInfo, ∃ s ∈ nv.2.Structure,
        s.Role = "system-boot" ∨ s.Label = "system-boot") →
      ∃ v, (scanVolumes sm.gadgetInfo ("", none)).2 = some v) ∧
    (populateBootfsContents env sm).sm = sm := by
  obtain ⟨issued, h₁, h₂, h₃⟩ := writeStructures_calls env sm
    (scanVolumes sm.gadgetInfo ("", none)).1 laidOutVolume.LaidOutStructure 0
    [Call.LayoutVolume (env.filepathJoin [sm.tempDirs.unpack, "gadget"])
      (env.filepathJoin [sm.tempDirs.unpack, "kernel"])
      (scanVolumes sm.gadgetInfo ("", none)).2 false]
  have hcalls : (populateBootfsContents env sm).calls =
      (writeStructures env sm (scanVolumes sm.gadgetInfo ("", none)).1
        laidOutVolume.LaidOutStructure 0
        [Call.LayoutVolume (env.filepathJoin [sm.tempDirs.unpack, "gadget"])
          (env.filepathJoin [sm.tempDirs.unpack, "kernel"])
          (scanVolumes sm.gadgetInfo ("", none)).2 false]).1 := by
    simp only [populateBootfsContents, hlay]
  have hres : (populateBootfsContents env sm).result =
      (writeStructures env sm (scanVolumes sm.gadgetInfo ("", none)).1
        laidOutVolume.LaidOutStructure 0
        [Call.LayoutVolume (env.filepathJoin [sm.tempDirs.unpack, "gadget"])
          (env.filepathJoin [sm.tempDirs.unpack, "kernel"])
          (scanVolumes sm.gadgetInfo ("", none)).2 false]).2 := by
    simp only [populateBootfsContents, hlay]
  refine ⟨⟨issued, ?_, h₂, ?_⟩, ?_, ?_, ?_, ?_, ?_⟩
  · rw [hcalls, h₁]; rfl
  · intro hok
    exact h₃ (hres ▸ hok)
  · intro i s
    refine ⟨?_, ?_, ?_⟩
    · intro hfs hrole
      simp [structureWrites, bootTargetDir, hfs, hrole]
    · intro hfs hrole
      simp [structureWrites, bootTargetDir, hfs, hrole]
    · intro hfs
      simp [structureWrites, hfs]
  · intro hok i s hi
    obtain ⟨before, after, hseg⟩ := bootWrites_segment env sm
      (scanVolumes sm.gadgetInfo ("", none)).1 laidOutVolume.LaidOutStructure 0 i s hi
    rw [Nat.zero_add] at hseg
    refine ⟨Call.LayoutVolume (env.filepathJoin [sm.tempDirs.unpack, "gadget"])
      (env.filepathJoin [sm.tempDirs.unpack, "kernel"])
      (scanVolumes sm.gadgetInfo ("", none)).2 false :: before, after, ?_⟩
    rw [hcalls, h₁, h₃ (hres ▸ hok), hseg]
    simp
  · intro v hv
    exact scanVolumes_sound sm.gadgetInfo sm.gadgetInfo ("", none) (fun _ h => h)
      (fun v h => by cases h) v hv
  · intro hex
    have hne := scanVolumes_complete sm.gadgetInfo ("", none) (Or.inr hex)
    cases hscan : (scanVolumes sm.gadgetInfo ("", none)).2 with
    | none => exact absurd hscan hne
    | some v => exact ⟨v, rfl⟩
  · unfold populateBootfsContents
    simp only [hlay]

/-- Witness of C12: volume `pc` with a bare structure labelled `system-boot`, a
vfat system-seed structure and an ext4 system-boot structure, laid out in the
declared order. -/
theorem bootfs_writes_witness :
    (populateBootfsContents (quietEnv [] 0 0) bootMachine).result = Result.ok ∧
    ∃ issued,
      (populateBootfsContents (quietEnv [] 0 0) bootMachine).calls =
        Call.LayoutVolume "w/unpack/gadget" "w/unpack/kernel"
          (scanVolumes bootMachine.gadgetInfo ("", none)).2 false :: issued ∧
      issued <+: bootWrites (quietEnv [] 0 0) bootMachine
        (scanVolumes bootMachine.gadgetInfo ("", none)).1
        [{ VolumeStructure := labelledStructure, StartOffset := 0, Index := 0 },
         { VolumeStructure := seedStructure, StartOffset := 0, Index := 0 },
         { VolumeStructure := bootStructure, StartOffset := 0, Index := 0 }] 0 ∧
      ((populateBootfsContents (quietEnv [] 0 0) bootMachine).result = Result.ok →
        issued = bootWrites (quietEnv [] 0 0) bootMachine
          (scanVolumes bootMachine.gadgetInfo ("", none)).1
          [{ VolumeStructure := labelledStructure, StartOffset := 0, Index := 0 },
           { VolumeStructure := seedStructure, StartOffset := 0, Index := 0 },
           { VolumeStructure := bootStructure, StartOffset := 0, Index := 0 }] 0) :=
  ⟨by decide,
    (bootfs_writes (quietEnv [] 0 0) bootMachine
      { LaidOutStructure :=
          [{ VolumeStructure := labelledStructure, StartOffset := 0, Index := 0 },
           { VolumeStructure := seedStructure, StartOffset := 0, Index := 0 },
           { VolumeStructure := bootStructure, StartOffset := 0, Index := 0 }] } rfl).1⟩

/-- The run over `bootMachine`, call by call: nothing for the bare structure at
index 0, the rootfs directory for the system-seed structure at index 1 and the
staging directory `part2` for the system-boot structure at index 2. -/
theorem bootMachine_calls :
    (populateBootfsContents (quietEnv [] 0 0) bootMachine).calls =
      [Call.LayoutVolume "w/unpack/gadget" "w/unpack/kernel"
         (some { Bootloader := "",
                 Structure := [labelledStructure, seedStructure, bootStructure] }) false,
       Call.NewMountedFilesystemWriter
         { VolumeStructure := seedStructure, StartOffset := 0, Index := 0 },
       Call.Write { VolumeStructure := seedStructure, StartOffset := 0, Index := 0 }
         "w/root" [],
       Call.NewMountedFilesystemWriter
         { VolumeStructure := bootStructure, StartOffset := 0, Index := 0 },
       Call.Write { VolumeStructure := bootStructure, StartOffset := 0, Index := 0 }
         "w/volumes/pc/part2" []] := by
  decide

/-- C13: for the volume `pc` whose only structure has role system-data, nothing
carries the boot role or label; `populateBootfsContents` hands the
nil system volume to `gadget.LayoutVolume` and, that call answering with a
layout without structures, ends without error. -/
theorem populateBootfsContents_without_boot :
    (∀ nv ∈ noBootMachine.gadgetInfo, ∀ s ∈ nv.2.Structure,
      ¬ (s.Role = "system-boot" ∨ s.Label = "system-boot")) ∧
    (populateBootfsContents (quietEnv [] 0 0) noBootMachine).calls =
      [Call.LayoutVolume "w/unpack/gadget" "w/unpack/kernel" none false] ∧
    (populateBootfsContents (quietEnv [] 0 0) noBootMachine).result = Result.ok := by
  decide

/-- Without any boot structure the outcome of `populateBootfsContents` is what
`gadget.LayoutVolume` makes of the nil volume: its error, or else the writes
for whatever layout it answers with. -/
theorem populateBootfsContents_no_boot (env : Env) (sm : StateMachine)
    (h : ∀ nv ∈ sm.gadgetInfo, ∀ s ∈ nv.2.Structure, ¬ isBootStructure s) :
    (∀ err, env.LayoutVolume [] (env.filepathJoin [sm.tempDirs.unpack, "gadget"])
        (env.filepathJoin [sm.tempDirs.unpack, "kernel"]) none false = Except.error err →
      (populateBootfsContents env sm).result =
        Result.error ("Error laying out bootfs contents: " ++ err.msg)) ∧
    (∀ lv, env.LayoutVolume [] (env.filepathJoin [sm.tempDirs.unpack, "gadget"])
        (env.filepathJoin [sm.tempDirs.unpack, "kernel"]) none false = Except.ok lv →
      lv.LaidOutStructure = [] →
      (populateBootfsContents env sm).result = Result.ok) := by
  have hscan := scanVolumes_no_boot sm.gadgetInfo ("", none) h
  constructor
  · intro err herr
    simp only [populateBootfsContents, hscan, herr]
  · intro lv hlv hnil
    simp only [populateBootfsContents, hscan, hlv, hnil, writeStructures]

/-! ## `makeTemporaryDirectories` and `finish` -/

theorem setTempDirs_spec (env : Env) (sm : StateMachine) (tr : List Call) :
    (setTempDirs env sm tr).sm =
      { sm with tempDirs :=
        { rootfs := env.filepathJoin [sm.stateMachineFlags.WorkDir, "root"],
          unpack := env.filepathJoin [sm.stateMachineFlags.WorkDir, "unpack"],
          volumes := env.filepathJoin [sm.stateMachineFlags.WorkDir, "volumes"] } } := by
  unfold setTempDirs
  dsimp only
  split <;> rfl

theorem makeTemporaryDirectories_blank (env : Env) (sm : StateMachine)
    (hw : sm.stateMachineFlags.WorkDir = "") :
    ((makeTemporaryDirectories env sm).result = Result.ok →
      (makeTemporaryDirectories env sm).sm =
        { sm with
          cleanWorkDir := true,
          stateMachineFlags :=
            { WorkDir := env.filepathJoin ["/tmp", "ubuntu-image-" ++ env.uuidNewString []] },
          tempDirs :=
            { rootfs := env.filepathJoin
                [env.filepathJoin ["/tmp", "ubuntu-image-" ++ env.uuidNewString []], "root"],
              unpack := env.filepathJoin
                [env.filepathJoin ["/tmp", "ubuntu-image-" ++ env.uuidNewString []], "unpack"],
              volumes := env.filepathJoin
                [env.filepathJoin ["/tmp", "ubuntu-image-" ++ env.uuidNewString []],
                  "volumes"] } }) ∧
    (makeTemporaryDirectories env sm).sm.stateMachineFlags.WorkDir =
      env.filepathJoin ["/tmp", "ubuntu-image-" ++ env.uuidNewString []] := by
  unfold makeTemporaryDirectories
  rw [if_pos hw]
  dsimp only
  cases hmk : env.osMkdir [Call.uuidNewString]
      (env.filepathJoin ["/tmp", "ubuntu-image-" ++ env.uuidNewString []]) perm0755 with
  | some err => exact ⟨fun h => by simp at h, rfl⟩
  | none =>
    dsimp only
    rw [setTempDirs_spec]
    exact ⟨fun _ => rfl, rfl⟩

theorem makeTemporaryDirectories_supplied (env : Env) (sm : StateMachine)
    (hw : sm.stateMachineFlags.WorkDir ≠ "") :
    ((makeTemporaryDirectories env sm).result = Result.ok →
      (makeTemporaryDirectories env sm).sm =
        { sm with
          tempDirs :=
            { rootfs := env.filepathJoin [sm.stateMachineFlags.WorkDir, "root"],
              unpack := env.filepathJoin [sm.stateMachineFlags.WorkDir, "unpack"],
              volumes := env.filepathJoin [sm.stateMachineFlags.WorkDir, "volumes"] } }) ∧
    (makeTemporaryDirectories env sm).sm.cleanWorkDir = sm.cleanWorkDir ∧
    (makeTemporaryDirectories env sm).sm.stateMachineFlags.WorkDir =
      sm.stateMachineFlags.WorkDir := by
  unfold makeTemporaryDirectories
  rw [if_neg hw]
  cases hmk : env.osMkdirAll [] sm.stateMachineFlags.WorkDir perm0755 with
  | some err =>
    dsimp only
    by_cases hex : (!err.isExist) = true
    · rw [if_pos hex]
      exact ⟨fun h => by simp at h, rfl, rfl⟩
    · rw [if_neg hex, setTempDirs_spec]
      exact ⟨fun _ => rfl, rfl, rfl⟩
  | none =>
    dsimp only
    rw [setTempDirs_spec]
    exact ⟨fun _ => rfl, rfl, rfl⟩

/-- C14: starting from a build context whose `cleanWorkDir` is not set, a run of
`makeTemporaryDirectories` that ends without error has set `cleanWorkDir`
exactly when no work directory was supplied, and then the work directory is
the join of `/tmp` and `ubuntu-image-<uuid>`; with a supplied work directory
`cleanWorkDir` stays unset and the work directory is kept, however the run
ends.  After a run without error the temp directories are the joins of the
work directory with `root`, `unpack` and `volumes`.  `finish` calls the
cleanup exactly when `cleanWorkDir` is set, so not after a run with a supplied
work directory. -/
theorem workDir_cleanup (env : Env) (sm : StateMachine) (hfresh : sm.cleanWorkDir = false) :
    ((makeTemporaryDirectories env sm).result = Result.ok →
      ((makeTemporaryDirectories env sm).sm.cleanWorkDir = true ↔
        sm.stateMachineFlags.WorkDir = "")) ∧
    (sm.stateMachineFlags.WorkDir = "" →
      (makeTemporaryDirectories env sm).sm.stateMachineFlags.WorkDir =
        env.filepathJoin ["/tmp", "ubuntu-image-" ++ env.uuidNewString []]) ∧
    (sm.stateMachineFlags.WorkDir ≠ "" →
      (makeTemporaryDirectories env sm).sm.cleanWorkDir = false ∧
      (makeTemporaryDirectories env sm).sm.stateMachineFlags.WorkDir =
        sm.stateMachineFlags.WorkDir) ∧
    ((makeTemporaryDirectories env sm).result = Result.ok →
      (makeTemporaryDirectories env sm).sm.tempDirs =
        { rootfs := env.filepathJoin
            [(makeTemporaryDirectories env sm).sm.stateMachineFlags.WorkDir, "root"],
          unpack := env.filepathJoin
            [(makeTemporaryDirectories env sm).sm.stateMachineFlags.WorkDir, "unpack"],
          volumes := env.filepathJoin
            [(makeTemporaryDirectories env sm).sm.stateMachineFlags.WorkDir, "volumes"] }) ∧
    (∀ ctx : StateMachine,
      (Call.cleanup ∈ (finish env ctx).calls ↔ ctx.cleanWorkDir = true) ∧
      (ctx.cleanWorkDir = true → (finish env ctx).calls = [Call.cleanup]) ∧
      (ctx.cleanWorkDir = false →
        (finish env ctx).calls = [] ∧ (finish env ctx).result = Result.ok)) ∧
    (sm.stateMachineFlags.WorkDir ≠ "" →
      (finish env (makeTemporaryDirectories env sm).sm).calls = []) := by
  have hfinish : ∀ ctx : StateMachine,
      (Call.cleanup ∈ (finish env ctx).calls ↔ ctx.cleanWorkDir = true) ∧
      (ctx.cleanWorkDir = true → (finish env ctx).calls = [Call.cleanup]) ∧
      (ctx.cleanWorkDir = false →
        (finish env ctx).calls = [] ∧ (finish env ctx).result = Result.ok) := by
    intro ctx
    unfold finish
    cases hc : ctx.cleanWorkDir with
    | false => simp
    | true =>
      simp only [if_true]
      cases env.cleanup [] ctx <;> simp
  have hsupplied : sm.stateMachineFlags.WorkDir ≠ "" →
      (makeTemporaryDirectories env sm).sm.cleanWorkDir = false ∧
      (makeTemporaryDirectories env sm).sm.stateMachineFlags.WorkDir =
        sm.stateMachineFlags.WorkDir := by
    intro hw
    obtain ⟨_, h₂, h₃⟩ := makeTemporaryDirectories_supplied env sm hw
    exact ⟨h₂.trans hfresh, h₃⟩
  refine ⟨?_, ?_, hsupplied, ?_, hfinish, ?_⟩
  · intro hok
    by_cases hw : sm.stateMachineFlags.WorkDir = ""
    · refine ⟨fun _ => hw, fun _ => ?_⟩
      rw [(makeTemporaryDirectories_blank env sm hw).1 hok]
    · refine ⟨fun h => ?_, fun h => absurd h hw⟩
      rw [(hsupplied hw).1] at h
      cases h
  · intro hw
    exact (makeTemporaryDirectories_blank env sm hw).2
  · intro hok
    by_cases hw : sm.stateMachineFlags.WorkDir = ""
    · rw [(makeTemporaryDirectories_blank env sm hw).1 hok]
    · rw [(makeTemporaryDirectories_supplied env sm hw).1 hok]
  · intro hw
    exact ((hfinish _).2.2 (hsupplied hw).1).1

/-- Witness of C14: a build context without work directory in an environment
where every call succeeds. -/
theorem workDir_cleanup_witness :
    (makeTemporaryDirectories (quietEnv [] 0 0) blankMachine).result = Result.ok ∧
    ((makeTemporaryDirectories (quietEnv [] 0 0) blankMachine).sm.cleanWorkDir = true ↔
      blankMachine.stateMachineFlags.WorkDir = "") ∧
    (makeTemporaryDirectories (quietEnv [] 0 0) blankMachine).sm.stateMachineFlags.WorkDir =
      "/tmp/ubuntu-image-0000" ∧
    (makeTemporaryDirectories (quietEnv [] 0 0) blankMachine).sm.tempDirs =
      { rootfs := "/tmp/ubuntu-image-0000/root", unpack := "/tmp/ubuntu-image-0000/unpack",
        volumes := "/tmp/ubuntu-image-0000/volumes" } :=
  ⟨by decide,
    (workDir_cleanup (quietEnv [] 0 0) blankMachine rfl).1 (by decide),
    (workDir_cleanup (quietEnv [] 0 0) blankMachine rfl).2.1 rfl,
    (workDir_cleanup (quietEnv [] 0 0) blankMachine rfl).2.2.2.1 (by decide)⟩

/-! ## `loadGadgetYaml`: the synthesized structure and the seeded flags -/

theorem walkStructures_cons (w : WalkState) (s : VolumeStructure)
    (rest : List VolumeStructure) :
    walkStructures w (s :: rest) = walkStructures (walkStructure w s) rest := rfl

theorem walkStructures_farthest :
    ∀ (structures : List VolumeStructure) (w : WalkState),
      (walkStructures w structures).farthestOffset =
        (layoutEnds structures w.lastOffset).foldl max w.farthestOffset := by
  intro structures
  induction structures with
  | nil => intro w; rfl
  | cons s rest ih =>
    intro w
    rw [walkStructures_cons, ih]
    simp [walkStructure, layoutEnds, MaxOffset_eq_max]

theorem scanRole_rootfsSeen (s : VolumeStructure) (w : WalkState)
    (h : s.Role ≠ SystemData) : (scanRole s w).rootfsSeen = w.rootfsSeen := by
  unfold scanRole
  split_ifs <;> rfl

theorem walkStructures_rootfsSeen :
    ∀ (structures : List VolumeStructure) (w : WalkState),
      (∀ s ∈ structures, s.Role ≠ SystemData) →
      (walkStructures w structures).rootfsSeen = w.rootfsSeen := by
  intro structures
  induction structures with
  | nil => intro w _; rfl
  | cons s rest ih =>
    intro w h
    rw [walkStructures_cons, ih _ (fun x hx => h x (List.mem_cons_of_mem _ hx))]
    exact scanRole_rootfsSeen s w (h s (List.mem_cons_self _ _))

theorem preserveUnpack_sm (env : Env) (sm : StateMachine) (tr : List Call) :
    (preserveUnpack env sm tr).sm = sm := by
  unfold preserveUnpack
  dsimp only
  split
  · split <;> rfl
  · rfl

/-- Whenever lines 99-123 change the volumes, the volume set is a sole volume
named `pc` and the change is the rootfs structure appended to it. -/
theorem attachRootfs_changes (w : WalkState) (volumes volumes1 : List (String × Volume))
    (h : attachRootfs w volumes = some volumes1) (hne : volumes1 ≠ volumes) :
    ∃ volume, volumes = [("pc", volume)] ∧
      volumes1 = [("pc", { volume with
        Structure := volume.Structure ++ [rootfsStructure w.farthestOffset] })] := by
  unfold attachRootfs at h
  by_cases hc : (!w.rootfsSeen) = true ∧ volumes.length = 1
  · rw [if_pos hc] at h
    match volumes, hc with
    | [(name, volume)], hc =>
      by_cases hname : name = "pc"
      · subst hname
        refine ⟨volume, rfl, ?_⟩
        simp [List.lookup, appendStructure] at h
        exact h.symm
      · have hbeq : ("pc" == name) = false := by
          simpa using fun h' : "pc" = name => hname h'.symm
        simp [List.lookup, hbeq] at h
  · rw [if_neg hc] at h
    simp only [Option.some.injEq] at h
    exact absurd h.symm hne

/-- C15: when the descriptor parses to the sole volume `pc` without a
system-data structure and the volume directory can be created, `loadGadgetYaml`
leaves the declared structures as they are and appends one structure with empty
name, label `writable`, size 0, the fixed type, role system-data, filesystem
`ext4`, no content, and as declared offset the maximum over the declared
structures of resolved offset plus size as the layout walk computes them
(0 for none).  These are the only circumstances in which the volumes change. -/
theorem synthesized_rootfs (env : Env) (sm : StateMachine) (volume : Volume)
    (gadgetYamlBytes : List Nat)
    (hcopy : env.osutilCopySpecialFile [] sm.yamlFilePath sm.stateMachineFlags.WorkDir = none)
    (hread : env.ioutilReadFile
      [Call.osutilCopySpecialFile sm.yamlFilePath sm.stateMachineFlags.WorkDir]
      sm.yamlFilePath = Except.ok gadgetYamlBytes)
    (hparse : env.InfoFromGadgetYaml gadgetYamlBytes = Except.ok [("pc", volume)])
    (hmk : env.osMkdirAll
      [Call.osutilCopySpecialFile sm.yamlFilePath sm.stateMachineFlags.WorkDir,
        Call.ioutilReadFile sm.yamlFilePath]
      (env.filepathJoin [sm.tempDirs.volumes, "pc"]) perm0755 = none)
    (hnodata : ∀ s ∈ volume.Structure, s.Role ≠ "system-data") :
    (loadGadgetYaml env sm).sm.gadgetInfo =
      [("pc",
        { volume with
          Structure := volume.Structure ++
            [{ Name := "",
               Label := "writable",
               Offset := some ((layoutEnds volume.Structure 0).foldl max 0),
               OffsetWrite := some { RelativeTo := "", Offset := 0 },
               Size := 0,
               Typ := "83,0FC63DAF-8483-4772-8E79-3D69D8477DE4",
               Role := "system-data",
               ID := "",
               Filesystem := "ext4",
               Content := [],
               Update := { Edition := 0, Preserve := [] } }] })] ∧
    (∀ e ∈ layoutEnds volume.Structure 0, e ≤ (layoutEnds volume.Structure 0).foldl max 0) ∧
    ((layoutEnds volume.Structure 0).foldl max 0 = 0 ∨
      (layoutEnds volume.Structure 0).foldl max 0 ∈ layoutEnds volume.Structure 0) ∧
    (∀ (w : WalkState) (volumes volumes1 : List (String × Volume)),
      attachRootfs w volumes = some volumes1 → volumes1 ≠ volumes →
      ∃ v, volumes = [("pc", v)] ∧
        volumes1 = [("pc", { v with
          Structure := v.Structure ++ [rootfsStructure w.farthestOffset] })]) := by
  refine ⟨?_, (foldl_max_ge _ 0).2, foldl_max_attained _ 0, attachRootfs_changes⟩
  have hseen : (walkStructures
      { rootfsSeen := false, isSeeded := sm.isSeeded, hooksAllowed := sm.hooksAllowed,
        farthestOffset := 0, lastOffset := 0 } volume.Structure).rootfsSeen = false :=
    walkStructures_rootfsSeen volume.Structure _ hnodata
  have hfar := walkStructures_farthest volume.Structure
    { rootfsSeen := false, isSeeded := sm.isSeeded, hooksAllowed := sm.hooksAllowed,
      farthestOffset := 0, lastOffset := 0 }
  simp only [loadGadgetYaml, hcopy, hread, hparse, layoutGadget, walkVolumes, hmk]
  rw [attachRootfs_pc _ volume hseen]
  dsimp only
  rw [preserveUnpack_sm, hfar]
  rfl

/-- Witness of C15: the descriptor with the sole volume `pc` holding one vfat
boot structure of 1 MiB without declared offset; the appended structure starts
at 2 MiB. -/
theorem synthesized_rootfs_witness :
    (loadGadgetYaml (quietEnv [("pc", pcBootVolume)] 0 0) freshMachine).sm.gadgetInfo =
      [("pc",
        { pcBootVolume with
          Structure := pcBootVolume.Structure ++
            [{ Name := "",
               Label := "writable",
               Offset := some ((layoutEnds pcBootVolume.Structure 0).foldl max 0),
               OffsetWrite := some { RelativeTo := "", Offset := 0 },
               Size := 0,
               Typ := "83,0FC63DAF-8483-4772-8E79-3D69D8477DE4",
               Role := "system-data",
               ID := "",
               Filesystem := "ext4",
               Content := [],
               Update := { Edition := 0, Preserve := [] } }] })] ∧
    (layoutEnds pcBootVolume.Structure 0).foldl max 0 = 2097152 :=
  ⟨(synthesized_rootfs (quietEnv [("pc", pcBootVolume)] 0 0) freshMachine pcBootVolume []
      rfl rfl rfl rfl (by decide)).1, by decide⟩

theorem walkStructure_flags (w : WalkState) (s : VolumeStructure) :
    (s.Role = SystemSeed →
      (walkStructure w s).isSeeded = true ∧ (walkStructure w s).hooksAllowed = false) ∧
    (w.isSeeded = true ∧ w.hooksAllowed = false →
      (walkStructure w s).isSeeded = true ∧ (walkStructure w s).hooksAllowed = false) := by
  have hne : SystemSeed ≠ SystemData := by decide
  have hne2 : SystemSeed ≠ "" := by decide
  constructor
  · intro hs
    simp [walkStructure, scanRole, hs, hne, hne2]
  · intro hw
    simp only [walkStructure, scanRole]
    split_ifs <;> simp [hw]

theorem walkStructures_flags :
    ∀ (structures : List VolumeStructure) (w : WalkState),
      ((∃ s ∈ structures, s.Role = SystemSeed) ∨
        (w.isSeeded = true ∧ w.hooksAllowed = false)) →
      (walkStructures w structures).isSeeded = true ∧
        (walkStructures w structures).hooksAllowed = false := by
  intro structures
  induction structures with
  | nil =>
    intro w h
    rcases h with ⟨s, hs, _⟩ | h
    · simp at hs
    · exact h
  | cons x rest ih =>
    intro w h
    rw [walkStructures_cons]
    apply ih
    rcases h with ⟨s, hs, hseed⟩ | h
    · rcases List.mem_cons.mp hs with rfl | hs
      · exact Or.inr ((walkStructure_flags w s).1 hseed)
      · exact Or.inl ⟨s, hs, hseed⟩
    · exact Or.inr ((walkStructure_flags w x).2 h)

theorem walkVolumes_flags (env : Env) (volumesDir : String) :
    ∀ (volumes : List (String × Volume)) (w : WalkState) (tr : List Call),
      (walkVolumes env volumesDir volumes w tr).2.2 = Result.ok →
      ((∃ nv ∈ volumes, ∃ s ∈ nv.2.Structure, s.Role = SystemSeed) ∨
        (w.isSeeded = true ∧ w.hooksAllowed = false)) →
      (walkVolumes env volumesDir volumes w tr).1.isSeeded = true ∧
        (walkVolumes env volumesDir volumes w tr).1.hooksAllowed = false := by
  intro volumes
  induction volumes with
  | nil =>
    intro w tr _ h
    rcases h with ⟨nv, hnv, _⟩ | h
    · simp at hnv
    · exact h
  | cons nv rest ih =>
    intro w tr
    rcases nv with ⟨volumeName, volume⟩
    simp only [walkVolumes]
    split
    · intro hok
      simp at hok
    · intro hok h
      apply ih _ _ hok
      rcases h with ⟨x, hx, s, hs, hseed⟩ | h
      · rcases List.mem_cons.mp hx with rfl | hx
        · exact Or.inr (walkStructures_flags _ w (Or.inl ⟨s, hs, hseed⟩))
        · exact Or.inl ⟨x, hx, s, hs, hseed⟩
      · exact Or.inr (walkStructures_flags _ w (Or.inr h))

theorem preserveUnpack_ok_of (env : Env) (sm : StateMachine) (tr : List Call) :
    (preserveUnpack env sm tr).result = Result.ok ∨
      ∃ msg, (preserveUnpack env sm tr).result = Result.error msg := by
  unfold preserveUnpack
  dsimp only
  split
  · split
    · exact Or.inr ⟨_, rfl⟩
    · exact Or.inl rfl
  · exact Or.inl rfl

theorem layoutGadget_flags (env : Env) (sm : StateMachine) (tr : List Call)
    (hok : (layoutGadget env sm tr).result = Result.ok)
    (hseed : ∃ nv ∈ sm.gadgetInfo, ∃ s ∈ nv.2.Structure, s.Role = SystemSeed) :
    (layoutGadget env sm tr).sm.isSeeded = true ∧
      (layoutGadget env sm tr).sm.hooksAllowed = false := by
  have hwalk := walkVolumes_flags env sm.tempDirs.volumes sm.gadgetInfo
    { rootfsSeen := false, isSeeded := sm.isSeeded, hooksAllowed := sm.hooksAllowed,
      farthestOffset := 0, lastOffset := 0 } tr
  unfold layoutGadget at hok ⊢
  dsimp only at hok ⊢
  generalize walkVolumes env sm.tempDirs.volumes sm.gadgetInfo
    { rootfsSeen := false, isSeeded := sm.isSeeded, hooksAllowed := sm.hooksAllowed,
      farthestOffset := 0, lastOffset := 0 } tr = x at hok hwalk ⊢
  rcases x with ⟨w, tr1, r⟩
  cases r with
  | ok =>
    have hflags := hwalk rfl (Or.inl hseed)
    dsimp only at hok ⊢
    cases hatt : attachRootfs w sm.gadgetInfo with
    | none => rw [hatt] at hok; simp at hok
    | some volumes =>
      dsimp only
      rw [preserveUnpack_sm]
      exact hflags
  | error msg => simp at hok
  | panic msg => simp at hok

/-! ## `populateRootfsContentsHooks` -/

/-- C16: `populateRootfsContentsHooks` calls the hook runner exactly when hooks
are allowed and the list of hooks directories is not empty, then once, with
`post-populate-rootfs`, `UBUNTU_IMAGE_HOOK_ROOTFS` and the rootfs directory,
and ends as the runner does (its error, or no error); otherwise it issues no
call and ends without error.  The build context is not changed.  A run of
`loadGadgetYaml` that ends without error on a descriptor with some structure
of role system-seed sets `isSeeded` and clears `hooksAllowed`, after which the
hooks are skipped. -/
theorem hooks_rule (env : Env) (sm : StateMachine) :
    (Call.runHooks "post-populate-rootfs" "UBUNTU_IMAGE_HOOK_ROOTFS" sm.tempDirs.rootfs ∈
        (populateRootfsContentsHooks env sm).calls ↔
      sm.hooksAllowed = true ∧ sm.commonFlags.HooksDirectories ≠ []) ∧
    (sm.hooksAllowed = true → sm.commonFlags.HooksDirectories ≠ [] →
      (populateRootfsContentsHooks env sm).calls =
        [Call.runHooks "post-populate-rootfs" "UBUNTU_IMAGE_HOOK_ROOTFS" sm.tempDirs.rootfs] ∧
      (env.runHooks [] sm "post-populate-rootfs" "UBUNTU_IMAGE_HOOK_ROOTFS"
          sm.tempDirs.rootfs = none →
        (populateRootfsContentsHooks env sm).result = Result.ok) ∧
      (∀ err, env.runHooks [] sm "post-populate-rootfs" "UBUNTU_IMAGE_HOOK_ROOTFS"
          sm.tempDirs.rootfs = some err →
        (populateRootfsContentsHooks env sm).result = Result.error err.msg)) ∧
    (¬ (sm.hooksAllowed = true ∧ sm.commonFlags.HooksDirectories ≠ []) →
      (populateRootfsContentsHooks env sm).calls = [] ∧
      (populateRootfsContentsHooks env sm).result = Result.ok) ∧
    (populateRootfsContentsHooks env sm).sm = sm ∧
    (∀ (loader : Env) (gadgetYamlBytes : List Nat) (volumes : List (String × Volume)),
      loader.ioutilReadFile
        [Call.osutilCopySpecialFile sm.yamlFilePath sm.stateMachineFlags.WorkDir]
        sm.yamlFilePath = Except.ok gadgetYamlBytes →
      loader.InfoFromGadgetYaml gadgetYamlBytes = Except.ok volumes →
      (∃ nv ∈ volumes, ∃ s ∈ nv.2.Structure, s.Role = "system-seed") →
      (loadGadgetYaml loader sm).result = Result.ok →
        (loadGadgetYaml loader sm).sm.isSeeded = true ∧
        (loadGadgetYaml loader sm).sm.hooksAllowed = false ∧
        (populateRootfsContentsHooks env (loadGadgetYaml loader sm).sm).calls = [] ∧
        (populateRootfsContentsHooks env (loadGadgetYaml loader sm).sm).result =
          Result.ok) := by
  have hskip : ∀ ctx : StateMachine,
      ¬ (ctx.hooksAllowed = true ∧ ctx.commonFlags.HooksDirectories ≠ []) →
      (populateRootfsContentsHooks env ctx).calls = [] ∧
      (populateRootfsContentsHooks env ctx).result = Result.ok := by
    intro ctx h
    unfold populateRootfsContentsHooks
    cases ha : ctx.hooksAllowed with
    | false => simp
    | true =>
      have hd : ctx.commonFlags.HooksDirectories = [] := by
        by_contra hd
        exact h ⟨ha, hd⟩
      simp [hd]
  have hrun : sm.hooksAllowed = true → sm.commonFlags.HooksDirectories ≠ [] →
      (populateRootfsContentsHooks env sm).calls =
        [Call.runHooks "post-populate-rootfs" "UBUNTU_IMAGE_HOOK_ROOTFS" sm.tempDirs.rootfs] ∧
      (env.runHooks [] sm "post-populate-rootfs" "UBUNTU_IMAGE_HOOK_ROOTFS"
          sm.tempDirs.rootfs = none →
        (populateRootfsContentsHooks env sm).result = Result.ok) ∧
      (∀ err, env.runHooks [] sm "post-populate-rootfs" "UBUNTU_IMAGE_HOOK_ROOTFS"
          sm.tempDirs.rootfs = some err →
        (populateRootfsContentsHooks env sm).result = Result.error err.msg) := by
    intro ha hd
    have hlen : ¬ sm.commonFlags.HooksDirectories.length = 0 := by
      intro h0
      exact hd (List.length_eq_zero.mp h0)
    unfold populateRootfsContentsHooks
    simp only [ha, Bool.not_true, Bool.false_eq_true, if_false, hlen]
    cases hr : env.runHooks [] sm "post-populate-rootfs" "UBUNTU_IMAGE_HOOK_ROOTFS"
        sm.tempDirs.rootfs with
    | none => exact ⟨rfl, fun _ => rfl, fun err h => by cases h⟩
    | some e =>
      refine ⟨rfl, fun h => (by cases h), fun err h => ?_⟩
      cases h
      rfl
  refine ⟨?_, hrun, hskip sm, ?_, ?_⟩
  · constructor
    · intro hmem
      by_contra hc
      rw [(hskip sm hc).1] at hmem
      simp at hmem
    · rintro ⟨ha, hd⟩
      rw [(hrun ha hd).1]
      exact List.mem_singleton.mpr rfl
  · unfold populateRootfsContentsHooks
    split
    · rfl
    · split
      · rfl
      · dsimp only
        split <;> rfl
  · intro loader gadgetYamlBytes volumes hread hparse hseed hok
    have hload : loadGadgetYaml loader sm =
        layoutGadget loader { sm with gadgetInfo := volumes }
          [Call.osutilCopySpecialFile sm.yamlFilePath sm.stateMachineFlags.WorkDir,
            Call.ioutilReadFile sm.yamlFilePath] := by
      unfold loadGadgetYaml at hok ⊢
      dsimp only at hok ⊢
      cases hcopy : loader.osutilCopySpecialFile [] sm.yamlFilePath
          sm.stateMachineFlags.WorkDir with
      | some err => rw [hcopy] at hok; simp at hok
      | none => simp only [hread, hparse]
    rw [hload] at hok ⊢
    obtain ⟨h₁, h₂⟩ := layoutGadget_flags loader _ _ hok hseed
    refine ⟨h₁, h₂, ?_⟩
    exact hskip _ (fun h => by rw [h₂] at h; exact absurd h.1 (by decide))

/-- Witness of C16: the descriptor `seededGadget` is loaded into a build context
with one hooks directory; afterwards the hooks are skipped. -/
theorem hooks_rule_witness :
    (loadGadgetYaml (quietEnv seededGadget 0 0) blankMachine).sm.isSeeded = true ∧
    (loadGadgetYaml (quietEnv seededGadget 0 0) blankMachine).sm.hooksAllowed = false ∧
    (populateRootfsContentsHooks (quietEnv [] 0 0)
      (loadGadgetYaml (quietEnv seededGadget 0 0) blankMachine).sm).calls = [] ∧
    (populateRootfsContentsHooks (quietEnv [] 0 0)
      (loadGadgetYaml (quietEnv seededGadget 0 0) blankMachine).sm).result = Result.ok :=
  (hooks_rule (quietEnv [] 0 0) blankMachine).2.2.2.2 (quietEnv seededGadget 0 0) []
    seededGadget rfl rfl (by decide) (by decide)

/-- The hook runner is called once when hooks are allowed and a hooks directory
is configured. -/
theorem blankMachine_hooks :
    (populateRootfsContentsHooks (quietEnv [] 0 0) blankMachine).calls =
      [Call.runHooks "post-populate-rootfs" "UBUNTU_IMAGE_HOOK_ROOTFS" ""] := by
  decide

/-! ## `populatePreparePartitions`: what it leaves untouched -/

theorem preparePartitions_table (env : Env) (sm : StateMachine) (m : List (String × Nat))
    (volumeName : String) :
    ∀ (ps : List VolumeStructure) (n far : Nat) (tr : List Call),
      preparePartitions env { sm with imageSizes := m } volumeName ps n far tr =
        preparePartitions env sm volumeName ps n far tr := by
  intro ps
  induction ps with
  | nil => intro n far tr; rfl
  | cons p rest ih =>
    intro n far tr
    have hp : preparePartition env { sm with imageSizes := m } volumeName n p far tr =
        preparePartition env sm volumeName n p far tr := rfl
    rw [preparePartitions_cons, preparePartitions_cons, hp, ih]

theorem prepareVolume_table (env : Env) (sm : StateMachine) (m : List (String × Nat))
    (volumeName : String) (volume : Volume) (table : List (String × Nat))
    (tr : List Call) :
    prepareVolume env { sm with imageSizes := m } volumeName volume table tr =
      prepareVolume env sm volumeName volume table tr := by
  have hlk : stageLk env { sm with imageSizes := m } volume tr = stageLk env sm volume tr :=
    rfl
  have hstore : ∀ far, storeImageSize env { sm with imageSizes := m } volumeName far table =
      storeImageSize env sm volumeName far table := fun _ => rfl
  rw [prepareVolume_eq, prepareVolume_eq, hlk, preparePartitions_table]
  simp only [hstore]

theorem prepareVolumes_table (env : Env) (sm : StateMachine) (m : List (String × Nat)) :
    ∀ (volumes : List (String × Volume)) (table : List (String × Nat)) (tr : List Call),
      prepareVolumes env { sm with imageSizes := m } volumes table tr =
        prepareVolumes env sm volumes table tr := by
  intro volumes
  induction volumes with
  | nil => intro table tr; rfl
  | cons nv rest ih =>
    intro table tr
    rcases nv with ⟨volumeName, volume⟩
    rw [prepareVolumes_cons, prepareVolumes_cons, prepareVolume_table, ih]

/-- C17: `populatePreparePartitions` changes no field of the build context
other than `imageSizes`; in particular the volume model, with the size of every
stored structure, is the one from before the step, although the loop-local copy
of a system-data or system-seed structure whose declared size is 0 or below
`rootfsSize` has its size set to `rootfsSize`.  The resulting `imageSizes` does
not depend on the table from before the step. -/
theorem populate_frame (env : Env) (sm : StateMachine) :
    (populatePreparePartitions env sm).sm =
      { sm with imageSizes := (populatePreparePartitions env sm).sm.imageSizes } ∧
    (populatePreparePartitions env sm).sm.gadgetInfo = sm.gadgetInfo ∧
    (∀ (volumeName : String) (volume : Volume), (volumeName, volume) ∈ sm.gadgetInfo →
      ∀ (n : Nat) (p : VolumeStructure), volume.Structure[n]? = some p →
        ∃ volume1 : Volume,
          (volumeName, volume1) ∈ (populatePreparePartitions env sm).sm.gadgetInfo ∧
          volume1.Structure[n]? = some p) ∧
    (∀ p : VolumeStructure, (p.Role = "system-data" ∨ p.Role = "system-seed") →
      (p.Size = 0 ∨ p.Size < sm.rootfsSize) →
      (sizePartition sm.rootfsSize p).Size = sm.rootfsSize ∧
      sizePartition sm.rootfsSize p = { p with Size := sm.rootfsSize }) ∧
    (∀ table : List (String × Nat),
      (populatePreparePartitions env { sm with imageSizes := table }).sm.imageSizes =
        (populatePreparePartitions env sm).sm.imageSizes) ∧
    (sm.gadgetInfo = [] → (populatePreparePartitions env sm).sm.imageSizes = []) := by
  refine ⟨rfl, rfl, ?_, ?_, ?_, ?_⟩
  · intro volumeName volume hmem n p hn
    exact ⟨volume, hmem, hn⟩
  · intro p hrole hsize
    have hcases := (effectiveSize_cases sm.rootfsSize p).1 hrole
    have heff : effectiveSize sm.rootfsSize p = sm.rootfsSize := by
      rcases hsize with h0 | hlt
      · exact hcases.2.1 h0
      · exact hcases.2.2.1 hlt
    rw [sizePartition_eq, heff]
    exact ⟨rfl, rfl⟩
  · intro table
    show (prepareVolumes env { sm with imageSizes := table } sm.gadgetInfo [] []).1 =
      (prepareVolumes env sm sm.gadgetInfo [] []).1
    rw [prepareVolumes_table]
  · intro hnil
    show (prepareVolumes env sm sm.gadgetInfo [] []).1 = []
    rw [hnil]
    rfl

/-- Witness of C17: the system-data structure of `noBootMachine` declares size
0; after the step the stored structure still has size 0 while the zero-fill was
issued with `rootfsSize` = 12593412. -/
theorem populate_frame_witness :
    (populatePreparePartitions (quietEnv [] 0 0) noBootMachine).sm.gadgetInfo =
      [("pc", { Bootloader := "",
                Structure := [mkStructure "system-data" "writable" (some 1048576) 0
                  "ext4" []] })] ∧
    zeroFillCall "w/volumes/pc/part0.img" 12593412 ∈
      (populatePreparePartitions (quietEnv [] 0 0) noBootMachine).calls :=
  ⟨(populate_frame (quietEnv [] 0 0) noBootMachine).2.1, by decide⟩

end UbuntuImage
